import Mathlib

/-!
# Verification of the pymetaf METAR/SPECI/TAF parser

A shallow embedding of `pymetaf/parser.py` (module-level constants,
`validate_metar`, `miles_to_meters`, `get_field_text`, `get_weather_description`
and `parse_text`) over `List Char`, together with theorems settling the
specification claims.

Conventions of the embedding:
* Python strings are `List Char` (`Str` below); Python string methods
  (`split`, `strip`, `rstrip`, `replace`, `in`, slicing) are modelled by
  executable Lean functions with the same semantics on the relevant inputs.
* The regular-expression searches of the source are modelled pattern by
  pattern as executable leftmost-match scanners with Python `re` semantics
  (alternation preference, greediness, word boundaries, lookarounds) for the
  concrete pattern strings appearing in `FIELD_PATTERNS` and inside
  `validate_metar`.
* Python exceptions (`ValueError` from `int(...)`, `TypeError` from
  subscripting `None`, `ValueError` from `datetime(...)`, `IndexError`,
  `NameError`) are modelled by an explicit error result.
* The three float unit conversions (`* 0.5144444`, `* 33.8638`, `* 1609.34`,
  each followed by `int(...)`) are modelled by exact integer arithmetic
  `n * 5144444 / 10^7`, `n * 338638 / 10^4`, `n * 160934 / 10^2`; IEEE-754
  double evaluation agrees with these rational truncations on every value the
  parser can feed them (speeds 0–99, pressures 0–9999, whole miles 0–99).
-/

namespace Pymetaf

/-- Python strings, modelled as lists of characters. -/
abbrev Str := List Char

/-- Python `\s` / `str.split()` whitespace (the ASCII whitespace characters). -/
def isWsC (c : Char) : Bool :=
  c = ' ' || c = '\t' || c = '\n' || c = '\r' || c = '\x0b' || c = '\x0c'

/-- Python `str.isdigit` on ASCII / regex `\d`. -/
def isDigitC (c : Char) : Bool := '0' ≤ c && c ≤ '9'

/-- Regex `[A-Z]`. -/
def isUpperC (c : Char) : Bool := 'A' ≤ c && c ≤ 'Z'

/-- Regex `[a-z]`. -/
def isLowerC (c : Char) : Bool := 'a' ≤ c && c ≤ 'z'

/-- Regex `[A-Za-z]`. -/
def isAlphaC (c : Char) : Bool := isUpperC c || isLowerC c

/-- Regex word character `\w` = `[A-Za-z0-9_]` (ASCII; the inputs are ASCII). -/
def isWordC (c : Char) : Bool := isAlphaC c || isDigitC c || c = '_'

/-- Numeric value of a digit character. -/
def digitVal (c : Char) : Nat := c.toNat - 48

/-- All characters are digits. -/
def allDigits (s : Str) : Bool := s.all isDigitC

/-- Value of a nonempty digit string. -/
def digitsVal (s : Str) : Nat := s.foldl (fun a c => a * 10 + digitVal c) 0

/-- Python `int(s)` restricted to the shapes arising here: an optional `-`
sign followed by one or more digits; anything else raises `ValueError`,
modelled as `none`. -/
def pyInt (s : Str) : Option Int :=
  if s.head? = some '-' then
    if s.tail ≠ [] && allDigits s.tail then some (-(digitsVal s.tail : Int))
    else none
  else if s ≠ [] && allDigits s then some (digitsVal s : Int)
  else none

/-- Python `str.split()`: split on runs of whitespace, dropping empty pieces. -/
def pySplitWs (s : Str) : List Str :=
  match s with
  | [] => []
  | c :: rest =>
      if isWsC c then pySplitWs rest
      else
        match pySplitWs rest with
        | [] => [[c]]
        | w :: ws =>
            match rest with
            | [] => [[c]]
            | r :: _ => if isWsC r then [c] :: w :: ws else (c :: w) :: ws

/-- Python `str.split(sep)` for a single-character separator (keeps empties). -/
def splitChar (sep : Char) (s : Str) : List Str :=
  match s with
  | [] => [[]]
  | c :: rest =>
      let r := splitChar sep rest
      if c = sep then [] :: r
      else
        match r with
        | [] => [[c]]
        | w :: ws => (c :: w) :: ws

/-- Python `str.lstrip()` (whitespace). -/
def lstripWs (s : Str) : Str := s.dropWhile isWsC

/-- Python `str.strip()` (whitespace). -/
def stripWs (s : Str) : Str := ((lstripWs s).reverse.dropWhile isWsC).reverse

/-- Python `str.rstrip(c)` for a single strip character. -/
def rstripChar (c : Char) (s : Str) : Str :=
  (s.reverse.dropWhile (fun x => x = c)).reverse

/-- `pat` is a prefix of `s` (Python `str.startswith`, regex literal
matching). -/
def isPfx : Str → Str → Bool
  | [], _ => true
  | _ :: _, [] => false
  | a :: as, b :: bs => a = b && isPfx as bs

/-- `suf` is a suffix of `s` (Python `str.endswith`). -/
def isSfx (suf s : Str) : Bool := isPfx suf.reverse s.reverse

/-- Python `sub in s` (substring containment). -/
def isInfix (pat s : Str) : Bool :=
  match s with
  | [] => isPfx pat ([] : Str)
  | _ :: rest => isPfx pat s || isInfix pat rest

/-- Python `s.replace(pat, repl)` (all non-overlapping occurrences, left to
right; `pat` is nonempty in every use). Structural recursion on a fuel that
starts at the string length: every step consumes at least one character, so
the fuel never runs out. -/
def replaceAllAux (pat repl : Str) : Nat → Str → Str
  | 0, s => s
  | fuel + 1, s =>
    match s with
    | [] => []
    | c :: rest =>
        if pat ≠ [] && isPfx pat (c :: rest) then
          repl ++ replaceAllAux pat repl fuel ((c :: rest).drop pat.length)
        else
          c :: replaceAllAux pat repl fuel rest

def replaceAll (pat repl s : Str) : Str := replaceAllAux pat repl s.length s

/-- Python `' '.join`. -/
def joinSpace (ps : List Str) : Str :=
  match ps with
  | [] => []
  | [p] => p
  | p :: rest => p ++ ' ' :: joinSpace rest

/-- Lexicographic (code-point) strict order on strings, as Python `<`. -/
def lexLt (a b : Str) : Bool :=
  match a, b with
  | [], [] => false
  | [], _ :: _ => true
  | _ :: _, [] => false
  | x :: xs, y :: ys => x < y || (x = y && lexLt xs ys)

/-- Insert into a lexicographically sorted list. -/
def insLex (x : Str) (l : List Str) : List Str :=
  match l with
  | [] => [x]
  | y :: ys => if lexLt y x then y :: insLex x ys else x :: y :: ys

/-- Python `sorted` on a list of strings (stable ascending lexicographic). -/
def sortLex (l : List Str) : List Str :=
  match l with
  | [] => []
  | x :: xs => insLex x (sortLex xs)

/-! ## Leftmost-match scanners

`re.search` tries each start position from the left and returns the first
position where the pattern matches; alternation preference and greediness are
encoded inside each per-pattern matcher below. -/

/-- Leftmost search for a matcher that needs no left context. -/
def scanFor (f : Str → Option α) : Str → Option α
  | [] => f []
  | c :: rest =>
      match f (c :: rest) with
      | some r => some r
      | none => scanFor f rest

/-- Leftmost search for a matcher that inspects the previous character
(for word-boundary and lookbehind assertions). -/
def scanPrevAux (f : Option Char → Str → Option α) : Char → Str → Option α
  | p, [] => f (some p) []
  | p, c :: rest =>
      match f (some p) (c :: rest) with
      | some r => some r
      | none => scanPrevAux f c rest

/-- Leftmost search with previous-character tracking, starting at position 0
(no previous character). -/
def scanPrev (f : Option Char → Str → Option α) (s : Str) : Option α :=
  match f none s with
  | some r => some r
  | none =>
      match s with
      | [] => none
      | c :: rest => scanPrevAux f c rest

/-- `\b` before the match when the pattern starts with a word character:
the previous character must be absent or a non-word character. -/
def bdryBefore (prev : Option Char) : Bool :=
  match prev with
  | none => true
  | some c => !isWordC c

/-- `\b` after the match when the pattern ends with a word character:
the next character must be absent or a non-word character. -/
def bdryAfter (rest : Str) : Bool :=
  match rest.head? with
  | none => true
  | some c => !isWordC c

/-- Consume a literal prefix, returning the rest. -/
def takeLit (lit : Str) (s : Str) : Option Str :=
  if isPfx lit s then some (s.drop lit.length) else none

/-- Consume exactly `n` digits. -/
def takeDigits (n : Nat) (s : Str) : Option (Str × Str) :=
  let d := s.take n
  if d.length = n && allDigits d then some (d, s.drop n) else none

/-! ## `FIELD_PATTERNS` matchers (parse side) -/

/-- Match `FIELD_PATTERNS["kind"]`:
`(METAR( COR)?|SPECI( COR)?|TAF( AMD( CNL)?| COR)?)` at one position.
Alternatives are tried in order and optional groups greedily. -/
def matchKindAt (s : Str) : Option Str :=
  match takeLit "METAR".data s with
  | some r => some ("METAR".data ++ (if isPfx " COR".data r then " COR".data else []))
  | none =>
    match takeLit "SPECI".data s with
    | some r => some ("SPECI".data ++ (if isPfx " COR".data r then " COR".data else []))
    | none =>
      match takeLit "TAF".data s with
      | some r =>
          if isPfx " AMD".data r then
            some ("TAF AMD".data ++
              (if isPfx " CNL".data (r.drop 4) then " CNL".data else []))
          else if isPfx " COR".data r then some ("TAF COR".data)
          else some ("TAF".data)
      | none => none

/-- Match `FIELD_PATTERNS["time"]` = `\d{6}Z` at one position. -/
def matchTimeAt (s : Str) : Option Str :=
  match takeDigits 6 s with
  | some (d, r) => if r.head? = some 'Z' then some (d ++ ['Z']) else none
  | none => none

/-- Match `FIELD_PATTERNS["icao"]` = `\b[A-Z]{4}\b` at one position. -/
def matchIcaoAt (prev : Option Char) (s : Str) : Option Str :=
  if bdryBefore prev then
    let u := s.take 4
    if u.length = 4 && u.all isUpperC && bdryAfter (s.drop 4) then some u else none
  else none

/-- Character class `[G\d{2}]` of the wind pattern (the literal characters
`G`, `{`, `2`, `}` and the digits). -/
def windClassC (c : Char) : Bool := c = 'G' || c = '{' || c = '}' || isDigitC c

/-- Match `FIELD_PATTERNS["wind"]` =
`(\d{3}|VRB)\d{2}[G\d{2}]*(MPS|KT)( \d{3}V\d{3})?` at one position.
The starred class contains no `M` or `K`, so the unit can only match
immediately after the maximal class run (backtracking cannot help). -/
def matchWindAt (s : Str) : Option Str :=
  let dir? : Option (Str × Str) :=
    match takeDigits 3 s with
    | some dr => some dr
    | none => (takeLit "VRB".data s).map (fun r => ("VRB".data, r))
  match dir? with
  | none => none
  | some (dir, r1) =>
    match takeDigits 2 r1 with
    | none => none
    | some (sp, r2) =>
      let run := r2.takeWhile windClassC
      let r3 := r2.drop run.length
      let unit? : Option Str :=
        if isPfx "MPS".data r3 then some "MPS".data
        else if isPfx "KT".data r3 then some "KT".data
        else none
      match unit? with
      | none => none
      | some u =>
        let r4 := r3.drop u.length
        let var : Str :=
          match r4 with
          | ' ' :: r5 =>
            match takeDigits 3 r5 with
            | some (v1, 'V' :: r6) =>
              match takeDigits 3 r6 with
              | some (v2, _) => ' ' :: (v1 ++ 'V' :: v2)
              | none => []
            | _ => []
          | _ => []
        some (dir ++ sp ++ run ++ u ++ var)

/-- Match `M?\d{2}` (one leg of the temperature pattern). When the head is
`M` the sign must be taken: backtracking to the signless branch cannot
succeed because `M` is not a digit. -/
def matchSignedPair (s : Str) : Option (Str × Str) :=
  match s with
  | 'M' :: rest => (takeDigits 2 rest).map (fun (d, r) => ('M' :: d, r))
  | _ => takeDigits 2 s

/-- Match `FIELD_PATTERNS["temp/dew"]` = `\bM?\d{2}/M?\d{2}\b` at one
position. -/
def matchTempAt (prev : Option Char) (s : Str) : Option Str :=
  if bdryBefore prev then
    match matchSignedPair s with
    | some (p1, '/' :: r2) =>
      match matchSignedPair r2 with
      | some (p2, r3) => if bdryAfter r3 then some (p1 ++ '/' :: p2) else none
      | none => none
    | _ => none
  else none

/-- Match `FIELD_PATTERNS["qnh"]` = `[AQ]\d{4}` at one position. -/
def matchQnhAt (s : Str) : Option Str :=
  match s with
  | c :: rest =>
      if c = 'A' || c = 'Q' then
        match takeDigits 4 rest with
        | some (d, _) => some (c :: d)
        | none => none
      else none
  | [] => none

/-- `\b(?!/)` after the visibility match: next character absent, or a
non-word character other than `/`. -/
def visAfter (rest : Str) : Bool :=
  match rest.head? with
  | none => true
  | some c => !isWordC c && c ≠ '/'

/-- Match `FIELD_PATTERNS["vis"]` = `\b(\d{1,2}SM|\d{4})\b(?!/)` at one
position (first alternative preferred, `\d{1,2}` greedy). -/
def matchVisAt (prev : Option Char) (s : Str) : Option Str :=
  if bdryBefore prev then
    let sm2 : Option Str :=
      match takeDigits 2 s with
      | some (d, r) =>
          match takeLit "SM".data r with
          | some r' => if visAfter r' then some (d ++ "SM".data) else none
          | none => none
      | none => none
    let sm1 : Option Str :=
      match takeDigits 1 s with
      | some (d, r) =>
          match takeLit "SM".data r with
          | some r' => if visAfter r' then some (d ++ "SM".data) else none
          | none => none
      | none => none
    let v4 : Option Str :=
      match takeDigits 4 s with
      | some (d, r) => if visAfter r then some d else none
      | none => none
    match sm2 with
    | some m => some m
    | none => match sm1 with
              | some m => some m
              | none => v4
  else none

/-- The lookahead `(?= TEMPO| BECMG| NOSIG)` of the `observ` pattern. -/
def lookTrend (s : Str) : Bool :=
  isPfx " TEMPO".data s || isPfx " BECMG".data s ||
    isPfx " NOSIG".data s

/-- Lazy extension `.*?` of the `observ` pattern: extend one (non-newline)
character at a time until the trend lookahead holds. -/
def observExtend (pre : Str) (s : Str) : Option Str :=
  if lookTrend s then some pre
  else
    match s with
    | [] => none
    | c :: rest => if c = '\n' then none else observExtend (pre ++ [c]) rest

/-- Match `FIELD_PATTERNS["observ"]` =
`(METAR|SPECI|TAF).*?(?= TEMPO| BECMG| NOSIG)` at one position. -/
def matchObservAt (s : Str) : Option Str :=
  match takeLit "METAR".data s with
  | some r => observExtend "METAR".data r
  | none =>
    match takeLit "SPECI".data s with
    | some r => observExtend "SPECI".data r
    | none =>
      match takeLit "TAF".data s with
      | some r => observExtend "TAF".data r
      | none => none

/-- The six cloud-amount codes, in the pattern's alternation order. -/
def cloudAmts : List Str :=
  ["FEW".data, "SCT".data, "BKN".data, "OVC".data, "SKC".data, "NSC".data]

/-- Match `FIELD_PATTERNS["cloud"]` =
`(FEW|SCT|BKN|OVC|SKC|NSC)(\d{3})?([A-Za-z]*)?` at one position, returning
the match and the rest of the input after it. -/
def matchCloudAt (s : Str) : Option (Str × Str) :=
  match cloudAmts.findSome? (fun a => (takeLit a s).map (fun r => (a, r))) with
  | none => none
  | some (amt, r1) =>
    let (digs, r2) :=
      match takeDigits 3 r1 with
      | some (d, r) => (d, r)
      | none => (([] : Str), r1)
    let letters := r2.takeWhile isAlphaC
    some (amt ++ digs ++ letters, r2.drop letters.length)

/-- `re.finditer` for the cloud pattern: scan left to right, emitting each
match and resuming after it (cloud matches are never empty). -/
def findAllCloudAux : Nat → Str → List Str
  | 0, _ => []
  | _, [] => []
  | fuel + 1, c :: rest =>
    match matchCloudAt (c :: rest) with
    | some (m, r) => m :: findAllCloudAux fuel r
    | none => findAllCloudAux fuel rest

def findAllCloud (s : Str) : List Str := findAllCloudAux s.length s

/-- First literal of a regex alternation that matches at this position; the
literals of each weather group are distinct two-character (or sign) codes, so
at most one can match. -/
def tryOne (lits : List Str) (s : Str) : Option (Str × Str) :=
  lits.findSome? (fun l => (takeLit l s).map (fun r => (l, r)))

/-- An optional regex group over literal alternatives, continuation style:
greedily take a matching alternative, backtracking to the empty branch if the
continuation fails. -/
def grpOpt (lits : List Str) (acc : Str) (s : Str) (k : Str → Str → Option Str) :
    Option Str :=
  match tryOne lits s with
  | some (l, r) =>
      match k (acc ++ l) r with
      | some m => some m
      | none => k acc s
  | none => k acc s

def weatherIntens : List Str := ["+".data, "-".data, "VC".data, "RE".data]
def weatherDescs : List Str :=
  ["MI".data, "BC".data, "PR".data, "DR".data, "BL".data, "SH".data,
   "TS".data, "FZ".data]
def weatherPrecips : List Str :=
  ["DZ".data, "RA".data, "SN".data, "SG".data, "IC".data, "PL".data,
   "GR".data, "GS".data]
def weatherObscs : List Str :=
  ["BR".data, "FG".data, "FU".data, "VA".data, "DU".data, "SA".data,
   "HZ".data]
def weatherOthers : List Str :=
  ["PO".data, "SQ".data, "FC".data, "SS".data, "DS".data]

/-- The lookahead `(?=\s)`: a whitespace character must follow. -/
def wsAhead (s : Str) : Bool :=
  match s.head? with
  | some c => isWsC c
  | none => false

/-- Match `FIELD_PATTERNS["weather"]` at one position (the caller has already
checked the `(?<=\s)` lookbehind): `(?:\+|-|VC|RE)?` then the four optional
code groups then `(?=\s)`. May match the empty string. -/
def matchWeatherAt (s : Str) : Option Str :=
  grpOpt weatherIntens [] s (fun a1 r1 =>
    grpOpt weatherDescs a1 r1 (fun a2 r2 =>
      grpOpt weatherPrecips a2 r2 (fun a3 r3 =>
        grpOpt weatherObscs a3 r3 (fun a4 r4 =>
          grpOpt weatherOthers a4 r4 (fun a5 r5 =>
            if wsAhead r5 then some a5 else none)))))

/-- `re.finditer` for the weather pattern: positions whose previous character
is whitespace; after a nonempty match resume at its end, after an empty match
advance one position (as `finditer` does). -/
def findAllWeatherAux : Nat → Char → Str → List Str
  | 0, _, _ => []
  | fuel + 1, prev, s =>
    match if isWsC prev then matchWeatherAt s else none with
    | some m =>
        if h : m = [] then
          match s with
          | [] => [m]
          | c :: rest => m :: findAllWeatherAux fuel c rest
        else
          m :: findAllWeatherAux fuel (m.getLastD ' ') (s.drop m.length)
    | none =>
        match s with
        | [] => []
        | c :: rest => findAllWeatherAux fuel c rest

def findAllWeather (s : Str) : List Str :=
  match s with
  | [] => []
  | c :: rest => findAllWeatherAux s.length c rest

/-! ## `get_field_text` (the calls `parse_text` makes) -/

def getFieldKind (text : Str) : Option Str := scanFor matchKindAt text
def getFieldTime (text : Str) : Option Str := scanFor matchTimeAt text
def getFieldIcao (text : Str) : Option Str := scanPrev matchIcaoAt text
def getFieldWind (text : Str) : Option Str := scanFor matchWindAt text
def getFieldTemp (text : Str) : Option Str := scanPrev matchTempAt text
def getFieldQnh (text : Str) : Option Str := scanFor matchQnhAt text
def getFieldVis (text : Str) : Option Str := scanPrev matchVisAt text

def getFieldCavok (text : Str) : Option Str :=
  if isInfix "CAVOK".data text then some "CAVOK".data else none

def getFieldAuto (text : Str) : Option Str :=
  if isInfix "AUTO".data text then some "AUTO".data else none

def getFieldNil (text : Str) : Option Str :=
  if isInfix "NIL".data text then some "NIL".data else none

/-- `get_field_text("observ", text)` including its fallback: when the
pattern has no match the whole input with every `=` removed is returned. -/
def getFieldObserv (text : Str) : Str :=
  match scanFor matchObservAt text with
  | some m => m
  | none => replaceAll "=".data [] text

def getFieldCloudAll (text : Str) : Option (List Str) :=
  match findAllCloud text with
  | [] => none
  | ms => some ms

def getFieldWeatherAll (text : Str) : Option (List Str) :=
  match findAllWeather text with
  | [] => none
  | ms => some ms

/-! ## Data model of `parse_text` -/

/-- Python exceptions that `parse_text` can raise. -/
inductive PyErr
  | typeError   -- subscripting `None`
  | valueError  -- failing `int(...)`/`float(...)`/`datetime(...)`/unpacking
  | indexError  -- out-of-range string indexing
  | nameError   -- reading a conditionally-unbound local
  | keyError    -- missing dictionary key
deriving DecidableEq, Repr

inductive CloudType
  | cumulonimbus
  | altocumulus
deriving DecidableEq, Repr

structure CloudRec where
  cloud_mask : ℚ
  cloud_height : Option Int
  cloud_height_units : Str
  cloud_type : Option CloudType
deriving DecidableEq, Repr

/-- The `datetime(year, month, day, hour, minute, 0, tzinfo=utc)` value
(seconds are fixed at 0 and the zone at UTC). -/
structure DateTimeRec where
  year : Int
  month : Int
  day : Int
  hour : Int
  minute : Int
deriving DecidableEq, Repr

/-- The dictionary `parse_text` builds (the `*_units` entries are the
constant strings the source stores). -/
structure Record where
  kind : Option Str
  icao : Option Str
  datetime : DateTimeRec
  wind_direction : Option Int
  wind_direction_units : Str
  wind_speed : Option Int
  wind_speed_units : Str
  gust : Option Int
  wind_direction_range : Option (Int × Int)
  cavok : Bool
  visibility : Option Int
  visibility_units : Str
  temperature : Option Int
  dew_temperature : Option Int
  temperature_units : Str
  qnh : Option Int
  qnh_units : Str
  cloud : Option (List CloudRec)
  weather : List Str
  auto : Bool
deriving DecidableEq, Repr

/-- Outcome of a `parse_text` call: a record, the explicit `None`
no-observation result, an uncaught exception, or non-termination (the
`get_weather_description` loop can spin forever). -/
inductive PResult
  | ok (r : Record)
  | noObs
  | exn (e : PyErr)
  | hang
deriving DecidableEq, Repr

/-- Python `datetime` constructor validity: year in `[MINYEAR, MAXYEAR]`,
month in `[1,12]`, day in `[1, days_in_month]`, hour in `[0,23]`, minute in
`[0,59]`; out of range raises `ValueError` (modelled as `none`). -/
def isLeap (y : Int) : Bool := (y % 4 = 0 && y % 100 ≠ 0) || y % 400 = 0

def daysInMonth (y m : Int) : Int :=
  if m = 1 || m = 3 || m = 5 || m = 7 || m = 8 || m = 10 || m = 12 then 31
  else if m = 4 || m = 6 || m = 9 || m = 11 then 30
  else if isLeap y then 29 else 28

def mkDatetime (y mo d h mi : Int) : Option DateTimeRec :=
  if 1 ≤ y && y ≤ 9999 && 1 ≤ mo && mo ≤ 12 && 1 ≤ d && d ≤ daysInMonth y mo
      && 0 ≤ h && h ≤ 23 && 0 ≤ mi && mi ≤ 59 then
    some ⟨y, mo, d, h, mi⟩
  else none

/-! ## `get_weather_description` -/

/-- The `weather_codes` dictionary, in insertion (= iteration) order. -/
def weatherKeyDescs : List (Str × Str) :=
  [("DZ".data, "Drizzle".data), ("RA".data, "Rain".data),
   ("SN".data, "Snow".data), ("SG".data, "Snow Grains".data),
   ("IC".data, "Ice Crystals".data), ("PL".data, "Ice Pellets".data),
   ("GR".data, "Hail".data), ("GS".data, "Small Hail or Snow Pellets".data),
   ("UP".data, "Unknown Precipitation".data), ("BR".data, "Mist".data),
   ("FG".data, "Fog".data), ("FU".data, "Smoke".data),
   ("VA".data, "Volcanic Ash".data), ("DU".data, "Widespread Dust".data),
   ("SA".data, "Sand".data), ("HZ".data, "Haze".data),
   ("PY".data, "Spray".data), ("PO".data, "Dust/Sand Whirls".data),
   ("SQ".data, "Squalls".data), ("FC".data, "Funnel Cloud".data),
   ("SS".data, "Sandstorm".data), ("DS".data, "Duststorm".data),
   ("SH".data, "Showers of".data), ("TS".data, "Thunderstorm".data),
   ("BL".data, "Blowing".data), ("MI".data, "Shallow".data),
   ("BC".data, "Patches".data), ("PR".data, "Partial".data),
   ("DR".data, "Low Drifting".data), ("FZ".data, "Freezing".data),
   ("VC".data, "In the Vicinity".data), ("RE".data, "Recent".data)]

/-- One pass of the inner `for key in weather_codes.keys()` loop: the first
key that is a prefix of `code` is peeled; `none` when no key matches, in
which case the `while` loop repeats the identical pass forever. -/
def wdStep (code : Str) : Option (Str × Str) :=
  weatherKeyDescs.findSome?
    (fun kd => if isPfx kd.1 code then some (kd.2, code.drop kd.1.length) else none)

/-- The `while len(code) > 0` loop of `get_weather_description`. Every
successful pass consumes a two-character key, so `fuel = code.length` can
never run out; `none` means the Python loop never terminates. -/
def wdLoop : Nat → Str → Str → Option Str
  | _, acc, [] => some acc
  | 0, _, _ :: _ => none
  | fuel + 1, acc, c :: cs =>
    match wdStep (c :: cs) with
    | none => none
    | some (d, rest) => wdLoop fuel (acc ++ d ++ [' ']) rest

/-- `get_weather_description(code)`. `some s` models the Python function
returning `s`; `none` models the call never returning (the `while` loop
makes no progress once no key matches the head of the remaining code). -/
def get_weather_description (code : Str) : Option Str :=
  let p : Str × Str :=
    if code.head? = some '+' then ("Heavy ".data, code.tail)
    else if code.head? = some '-' then ("Light ".data, code.tail)
    else ([], code)
  (wdLoop p.2.length [] p.2).map (fun d => p.1 ++ stripWs d)

/-! ## `parse_text` field decoders -/

/-- `int(n * 0.5144444)` for the nonnegative integer speeds the parser
feeds it (agrees with the IEEE double computation on 0–99). -/
def knotsToMps (x : Int) : Int := Int.ofNat (x.toNat * 5144444 / 10000000)

/-- `int(int(qnhstr[1:]) * 33.8638)` for 0–9999 (agrees with the IEEE double
computation on that range). -/
def inHgToHpa (x : Int) : Int := Int.ofNat (x.toNat * 338638 / 10000)

/-- `int(miles_to_meters(float(digits)))` with `conversion_factor = 1609.34`,
for the whole-mile values 0–99 the visibility pattern can produce (agrees
with the IEEE double computation on that range). -/
def milesToMetersInt (v : Nat) : Nat := v * 160934 / 100

/-- Lines 648–674 of `parse_text`: decode direction, speed, gust and unit
out of the first space-separated item `wdws` of the extracted wind string
(the direction-range `wdrg` has already been decoded and is threaded
through). -/
def decodeWindRest (wdws : Str) (wdrg : Option (Int × Int)) :
    Except PyErr (Option Int × Option Int × Option Int × Option (Int × Int)) :=
  match (if wdws.take 3 = "VRB".data then Except.ok (none : Option Int)
         else if wdws.take 3 ≠ [] && allDigits (wdws.take 3) then
           Except.ok (some (digitsVal (wdws.take 3) : Int))
         else Except.error PyErr.nameError) with
  | .error e => .error e
  | .ok wd0 =>
    match pyInt ((wdws.drop 3).take 2) with
    | none => .error .valueError
    | some ws =>
      match wdws.get? 5 with
      | none => .error .indexError
      | some c5 =>
        match (if c5 = 'G' then
                 match pyInt ((wdws.drop 6).take 2) with
                 | none => Except.error PyErr.valueError
                 | some g => Except.ok ((some g : Option Int), wdws.drop 8)
               else Except.ok ((none : Option Int), wdws.drop 5)) with
        | .error e => .error e
        | .ok gu =>
          if gu.2 = "KT".data then
            .ok (if ws = 0 && wdws.take 3 = "000".data then none else wd0,
                 some (if ws ≠ 0 then knotsToMps ws else ws),
                 (match gu.1 with
                  | some g => if g ≠ 0 then some (knotsToMps g) else some g
                  | none => none),
                 wdrg)
          else
            .ok (if ws = 0 && wdws.take 3 = "000".data then none else wd0,
                 some ws, gu.1, wdrg)

/-- Lines 633–679: decode the wind group into
`(wind_direction, wind_speed, gust, wind_direction_range)`. -/
def decodeWind (w? : Option Str) :
    Except PyErr (Option Int × Option Int × Option Int × Option (Int × Int)) :=
  match w? with
  | none => .ok (none, none, none, none)
  | some windstr =>
    match (if (splitChar ' ' windstr).length > 1 then
             match pyInt (((splitChar ' ' windstr).getD 1 []).take 3) with
             | none => Except.error PyErr.valueError
             | some dir1 =>
               match pyInt (((splitChar ' ' windstr).getD 1 []).drop 4) with
               | none => Except.error PyErr.valueError
               | some dir2 => Except.ok (some ((dir1, dir2) : Int × Int))
           else Except.ok (none : Option (Int × Int))) with
    | .error e => .error e
    | .ok wdrg => decodeWindRest ((splitChar ' ' windstr).headD []) wdrg

/-- Lines 695–716: decode the visibility field. -/
def decodeVis (vis? cavok? : Option Str) : Except PyErr (Option Int) :=
  match vis? with
  | some visstr =>
      if visstr = "9999".data then .ok (some 99999)
      else if visstr = "0000".data then .ok (some 50)
      else if isSfx "SM".data visstr then
        let digs := visstr.take (visstr.length - 2)
        if digs ≠ [] && allDigits digs then
          .ok (some (milesToMetersInt (digitsVal digs) : Int))
        else .error .valueError
      else
        match pyInt visstr with
        | some v => .ok (some v)
        | none => .error .valueError
  | none => if cavok?.isSome then .ok (some 99999) else .ok none

/-- Lines 720–728: decode temperature/dew point. -/
def decodeTemp (t? : Option Str) : Except PyErr (Option Int × Option Int) :=
  match t? with
  | none => .ok (none, none)
  | some tempstr =>
    match splitChar '/' tempstr with
    | [a, b] =>
      match pyInt (replaceAll "M".data "-".data a) with
      | none => .error .valueError
      | some temp =>
        match pyInt (replaceAll "M".data "-".data b) with
        | none => .error .valueError
        | some dew => .ok (some temp, some dew)
    | _ => .error .valueError

/-- Lines 734–744: decode the altimeter setting. -/
def decodeQnh (q? : Option Str) : Except PyErr (Option Int) :=
  match q? with
  | none => .ok none
  | some qnhstr =>
    match qnhstr with
    | 'Q' :: ds =>
        match pyInt ds with
        | some n => .ok (some n)
        | none => .error .valueError
    | 'A' :: ds =>
        match pyInt ds with
        | some n => .ok (some (inHgToHpa n))
        | none => .error .valueError
    | _ => .error .nameError

/-- The `CLOUD_MASK` table (lines 750–758); `round(k/8, 2)` is exact on
these values. -/
def CLOUD_MASK (mask : Str) : Option ℚ :=
  if mask = "FEW".data then some ((2 : ℚ) / 8)
  else if mask = "SCT".data then some ((4 : ℚ) / 8)
  else if mask = "BKN".data then some ((6 : ℚ) / 8)
  else if mask = "OVC".data then some ((8 : ℚ) / 8)
  else if mask = "SKC".data then some 0
  else if mask = "NSC".data then some 0
  else if mask = "///".data then some 0
  else none

/-- Lines 762–789: decode one extracted cloud token. -/
def decodeCloudTok (cloudstr : Str) : Except PyErr CloudRec :=
  let cloud_type : Option CloudType :=
    if isInfix "CB".data cloudstr then some .cumulonimbus
    else if isInfix "TCU".data cloudstr then some .altocumulus
    else none
  let c1 := replaceAll "CB".data [] cloudstr
  let c2 := replaceAll "///".data [] c1
  let c3 := replaceAll "TCU".data [] c2
  let heightE : Except PyErr (Option Int) :=
    if c3.length = 3 then .ok none
    else
      match pyInt (c3.drop 3) with
      | some n => .ok (some (n * 20))
      | none => .error .valueError
  match heightE with
  | .error e => .error e
  | .ok height =>
    match CLOUD_MASK (c3.take 3) with
    | none => .error .keyError
    | some mask =>
        .ok { cloud_mask := mask, cloud_height := height,
              cloud_height_units := "m".data, cloud_type := cloud_type }

/-- The `for cloudstr in cloudstrs` loop: decode each token in order,
propagating the first exception. -/
def mapEx {α β : Type} (f : α → Except PyErr β) : List α → Except PyErr (List β)
  | [] => .ok []
  | x :: xs =>
    match f x with
    | .error e => .error e
    | .ok b =>
      match mapEx f xs with
      | .error e => .error e
      | .ok bs => .ok (b :: bs)

/-- Lines 748–792: the cloud layer list (tokens sorted before assembly). -/
def decodeClouds (toks? : Option (List Str)) :
    Except PyErr (Option (List CloudRec)) :=
  match toks? with
  | none => .ok none
  | some toks =>
    match mapEx decodeCloudTok (sortLex toks) with
    | .error e => .error e
    | .ok gs => .ok (some gs)

/-- Lines 794–815: the weather descriptions, synthesised from cloud cover
when no phenomenon token was extracted; `none` models the call hanging
inside `get_weather_description`. -/
def mapOpt {α β : Type} (f : α → Option β) : List α → Option (List β)
  | [] => some []
  | x :: xs =>
    match f x with
    | none => none
    | some b =>
      match mapOpt f xs with
      | none => none
      | some bs => some (b :: bs)

def decodeWeather (codes? : Option (List Str)) (clouds : Option (List CloudRec)) :
    Option (List Str) :=
  match codes? with
  | some codes => mapOpt get_weather_description codes
  | none =>
    match clouds with
    | none => some ["Clear Sky".data]
    | some gs =>
        some (gs.foldl
          (fun w g =>
            if g.cloud_mask = 0 then ["Clear Sky".data]
            else if 0 < g.cloud_mask && g.cloud_mask < 1 then ["Cloudy".data]
            else if g.cloud_mask = 1 then ["Overcast".data]
            else w)
          ["Cloudy".data])

/-- `parse_text(text, year, month)` (lines 601–823). Field decoding follows
the source order, so the first failing step determines the raised
exception. -/
def parse_text (text : Str) (year month : Int) : PResult :=
  match getFieldTime text with
  | none => .exn .typeError
  | some timestr =>
    match pyInt (timestr.take 2) with
    | none => .exn .valueError
    | some day =>
    match pyInt ((timestr.drop 2).take 2) with
    | none => .exn .valueError
    | some hour =>
    match pyInt ((timestr.drop 4).take 2) with
    | none => .exn .valueError
    | some minute =>
      match mkDatetime year month day hour minute with
      | none => .exn .valueError
      | some dt =>
        match getFieldNil (getFieldObserv text) with
        | some _ => .noObs
        | none =>
          match decodeWind (getFieldWind (getFieldObserv text)) with
          | .error e => .exn e
          | .ok w4 =>
            match decodeVis (getFieldVis (getFieldObserv text))
                (getFieldCavok (getFieldObserv text)) with
            | .error e => .exn e
            | .ok vis =>
              match decodeTemp (getFieldTemp (getFieldObserv text)) with
              | .error e => .exn e
              | .ok td =>
                match decodeQnh (getFieldQnh (getFieldObserv text)) with
                | .error e => .exn e
                | .ok qnh =>
                  match decodeClouds (getFieldCloudAll (getFieldObserv text)) with
                  | .error e => .exn e
                  | .ok clouds =>
                    match decodeWeather (getFieldWeatherAll (getFieldObserv text))
                        clouds with
                    | none => .hang
                    | some weather =>
                        .ok { kind := getFieldKind text,
                              icao := getFieldIcao text, datetime := dt,
                              wind_direction := w4.1,
                              wind_direction_units := "degree".data,
                              wind_speed := w4.2.1,
                              wind_speed_units := "m/s".data,
                              gust := w4.2.2.1, wind_direction_range := w4.2.2.2,
                              cavok := (getFieldCavok (getFieldObserv text)).isSome,
                              visibility := vis,
                              visibility_units := "m".data,
                              temperature := td.1, dew_temperature := td.2,
                              temperature_units := "degree C".data,
                              qnh := qnh, qnh_units := "hPa".data,
                              cloud := clouds, weather := weather,
                              auto := (getFieldAuto (getFieldObserv text)).isSome }

/-! ## Result accessors (used to state field-level claims) -/

def isOk : PResult → Bool
  | .ok _ => true
  | _ => false

def fieldQnh : PResult → Option (Option Int)
  | .ok r => some r.qnh
  | _ => none

def fieldWindSpeed : PResult → Option (Option Int)
  | .ok r => some r.wind_speed
  | _ => none

def fieldGust : PResult → Option (Option Int)
  | .ok r => some r.gust
  | _ => none

def fieldWindDirection : PResult → Option (Option Int)
  | .ok r => some r.wind_direction
  | _ => none

def fieldVisibility : PResult → Option (Option Int)
  | .ok r => some r.visibility
  | _ => none

def fieldCloudAt (p : PResult) (i : Nat) : Option CloudRec :=
  match p with
  | .ok r =>
    match r.cloud with
    | some gs => gs[i]?
    | none => none
  | _ => none

def fieldCloudLen : PResult → Option Nat
  | .ok r =>
    match r.cloud with
    | some gs => some gs.length
    | none => none
  | _ => none

/-! ## `validate_metar`

One `Reason` constructor per distinct rejection message template of the
source (payloads carry the interpolated token where one appears). -/

inductive Reason
  | emptyInput
  | lineBreaks
  | mkSpelling
  | rmkStrict
  | trendInRmk (kw : Str)
  | invalidChars
  | spellingError (w : Str)
  | placeholderQ
  | tooShort
  | missingFields
  | missingReportType (tok : Str)
  | invalidReportType (tok : Str)
  | missingIcao
  | invalidIcao (tok : Str)
  | missingTime
  | invalidTime (tok : Str)
  | invalidDay (d : Int)
  | invalidWind (tok : Str)
  | windSpacing (tok : Str)
  | windVarSpacing (tok : Str)
  | invalidQnh (tok : Str)
  | invalidEndingSpacing (a b : Str)
  | singleLetterEnding (tok : Str)
  | invalidEnding (tok : Str)
  | isolatedChar (tok : Str)
  | isolatedDigit (tok : Str)
  | isolatedNumeric (tok : Str)
  | timeIndicatorInMain (pfx : Str)
  | invalidCloudGroup (tok : Str)
  | suspiciousField (tok : Str)
  | timeIndicatorInTrend (tok : Str)
  | rvrInTrend (tok : Str)
  | qnhInTrend (tok : Str)
  | tempInTrend (tok : Str)
  | wshearInTrend (tok : Str)
  | probInTrend (tok : Str)
  | invalidEndingPair (a b : Str)
deriving DecidableEq, Repr

/-! ### Anchored token matchers used by the validator -/

/-- `^[A-Z]{4}$`. -/
def icaoShaped (p : Str) : Bool := p.length = 4 && p.all isUpperC

/-- `^(\d{2})(\d{4})Z$`. -/
def timeShaped (p : Str) : Bool :=
  p.length = 7 && allDigits (p.take 6) && p.getLastD ' ' = 'Z'

/-- `^[A-Z]+$`. -/
def upperOnly (p : Str) : Bool := !p.isEmpty && p.all isUpperC

/-- `^[A-Z]$`. -/
def singleUpper (p : Str) : Bool := p.length = 1 && p.all isUpperC

/-- Python `str.isdigit`. -/
def isdigitStr (p : Str) : Bool := !p.isEmpty && allDigits p

/-- `^\d{4}$`. -/
def digits4 (p : Str) : Bool := p.length = 4 && allDigits p

/-- `^\d{2,3}$`. -/
def digits23 (p : Str) : Bool := (p.length = 2 || p.length = 3) && allDigits p

/-- `MPS|KT` consuming the whole rest. -/
def unitMK (r : Str) : Bool := r = "MPS".data || r = "KT".data

/-- First alternative of the validator's wind pattern:
`(\d{3}|VRB)\d{2}(G\d{2})?(MPS|KT)` anchored on both sides. The optional
gust group is tried greedily; the unit cannot start with `G` or a digit, so
at most one of the two branches can succeed. -/
def windAlt1 (p : Str) : Bool :=
  match (match takeDigits 3 p with
         | some (_, r) => some r
         | none => takeLit "VRB".data p) with
  | none => false
  | some r1 =>
    match takeDigits 2 r1 with
    | none => false
    | some (_, r2) =>
      (match r2 with
       | 'G' :: r3 =>
         (match takeDigits 2 r3 with
          | some (_, r4) => unitMK r4
          | none => false) || unitMK r2
       | _ => unitMK r2)

/-- `^(VRB|\d{3})\d{2}(G\d{2})?(MPS|KT)$` (trend wind; the alternation
order differs from `windAlt1` but the alternatives are disjoint). -/
def trendWindShaped (p : Str) : Bool := windAlt1 p

/-- `^((\d{3}|VRB)\d{2}(G\d{2})?(MPS|KT)|/{5}(MPS|KT))$`. -/
def windFullShaped (p : Str) : Bool :=
  windAlt1 p || (match takeLit "/////".data p with
                 | some r => unitMK r
                 | none => false)

/-- `^\d{1,5}(MPS|KT|PS)$` (the maximal digit run must be 1–5 long and the
unit cannot start with a digit, so greedy matching is deterministic). -/
def windLikeShaped (p : Str) : Bool :=
  let run := p.takeWhile isDigitC
  let rest := p.drop run.length
  1 ≤ run.length && run.length ≤ 5 &&
    (rest = "MPS".data || rest = "KT".data || rest = "PS".data)

/-- `^\d{5}MPS[A-Z]|\d{5}MPSG\d+$` (first alternative is an unanchored-end
prefix, second is end-anchored; `re.match` anchors both at the start). -/
def windSpacingErr (p : Str) : Bool :=
  (match takeDigits 5 p with
   | some (_, r) =>
     (match takeLit "MPS".data r with
      | some r2 => (match r2.head? with
                    | some c => isUpperC c
                    | none => false)
      | none => false)
   | none => false) ||
  (match takeDigits 5 p with
   | some (_, r) =>
     (match takeLit "MPSG".data r with
      | some r2 => isdigitStr r2
      | none => false)
   | none => false)

/-- `^\d{5}MPSV\d+$`. -/
def windVarErr (p : Str) : Bool :=
  match takeDigits 5 p with
  | some (_, r) =>
    (match takeLit "MPSV".data r with
     | some r2 => isdigitStr r2
     | none => false)
  | none => false

/-- `^\d{3}V\d{3}$`. -/
def windVarShaped (p : Str) : Bool :=
  match takeDigits 3 p with
  | some (_, 'V' :: r2) => r2.length = 3 && allDigits r2
  | _ => false

/-- `^[AQ]\d{4}$`. -/
def qnhShaped (p : Str) : Bool :=
  match p with
  | c :: rest => (c = 'A' || c = 'Q') && rest.length = 4 && allDigits rest
  | [] => false

/-- `^[AQ]/{4}$`. -/
def qnhMissingShaped (p : Str) : Bool :=
  match p with
  | c :: rest => (c = 'A' || c = 'Q') && rest = "////".data
  | [] => false

/-- `M?` of the loose temperature pattern: when the head is `M` it must be
consumed (the signless branch would need a digit there). -/
def afterSign (s : Str) : Str :=
  match s with
  | 'M' :: r => r
  | _ => s

/-- `^M?\d+/M?\d+$`. -/
def tempLoose (p : Str) : Bool :=
  let s1 := afterSign p
  let d1 := s1.takeWhile isDigitC
  !d1.isEmpty &&
    (match s1.drop d1.length with
     | '/' :: s2 =>
       let s3 := afterSign s2
       let d2 := s3.takeWhile isDigitC
       !d2.isEmpty && (s3.drop d2.length).isEmpty
     | _ => false)

/-- `^M?\d{2}/M?\d{2}$`. -/
def tempStrict (p : Str) : Bool :=
  match matchSignedPair p with
  | some (_, '/' :: r2) =>
    (match matchSignedPair r2 with
     | some (_, r3) => r3.isEmpty
     | none => false)
  | _ => false

/-- `^R\d+` (prefix). -/
def rvrPfx (p : Str) : Bool :=
  match p with
  | 'R' :: c :: _ => isDigitC c
  | _ => false

/-- `^R\d{2}` (prefix). -/
def rvr2Pfx (p : Str) : Bool :=
  match p with
  | 'R' :: a :: b :: _ => isDigitC a && isDigitC b
  | _ => false

/-- Starts with one of the six cloud-amount codes
(`^(FEW|SCT|BKN|OVC|SKC|NSC)`, a prefix match). -/
def cloudPfxTok (p : Str) : Bool :=
  cloudAmts.any (fun a => isPfx a p)

/-- Starts with a recognised cloud type including `VV`
(`any(part.startswith(ct) for ct in valid_cloud_types)`). -/
def cloudVvPfxTok (p : Str) : Bool :=
  cloudPfxTok p || isPfx "VV".data p

/-- `^VV\d{3}$`. -/
def vvShaped (p : Str) : Bool :=
  match p with
  | 'V' :: 'V' :: rest => rest.length = 3 && allDigits rest
  | _ => false

/-- `^[/]+$`. -/
def slashesOnly (p : Str) : Bool := !p.isEmpty && p.all (fun c => c = '/')

/-- `^(FM|TL|AT)\d{4}$`. -/
def fmtlShaped (p : Str) : Bool :=
  match p with
  | a :: b :: rest =>
      ((a = 'F' && b = 'M') || (a = 'T' && b = 'L') || (a = 'A' && b = 'T')) &&
        rest.length = 4 && allDigits rest
  | _ => false

/-- `^PROB\d{2}$`. -/
def probShaped (p : Str) : Bool :=
  match takeLit "PROB".data p with
  | some r => r.length = 2 && allDigits r
  | none => false

/-- `^[A-Z]{2,3}\d{3}` (prefix; 3 letters preferred, backtracking to 2). -/
def cloudLike (p : Str) : Bool :=
  (match p with
   | a :: b :: c :: rest =>
       isUpperC a && isUpperC b && isUpperC c && (takeDigits 3 rest).isSome
   | _ => false) ||
  (match p with
   | a :: b :: rest => isUpperC a && isUpperC b && (takeDigits 3 rest).isSome
   | _ => false)

/-- Search `[A-Z]{6,}`: some position starts a run of six uppercase letters. -/
def hasUpperRun6 : Str → Bool
  | [] => false
  | c :: rest =>
      (((c :: rest).take 6).length = 6 && ((c :: rest).take 6).all isUpperC) ||
        hasUpperRun6 rest

/-- All suffixes reachable by consuming one or more precipitation codes
(the `(DZ|RA|SN|SG|IC|PL|GR|GS)+` group; existence semantics suffice for the
boolean full-match checks). -/
def precipChain : Nat → Str → List Str
  | 0, _ => []
  | fuel + 1, s =>
    match tryOne weatherPrecips s with
    | some (_, r) => r :: precipChain fuel r
    | none => []

/-- Both branches of an optional literal group, for boolean full-matching. -/
def eatOptB (lits : List Str) (s : Str) : List Str :=
  match tryOne lits s with
  | some (_, r) => [r, s]
  | none => [s]

def signChars : List Str := ["+".data, "-".data]
def vcreChars : List Str := ["VC".data, "RE".data]

/-- The validator's weather pattern (line 394):
`^[+-]?(VC|RE)?(MI|…|FZ)?(DZ|…|GS)+(BR|…|HZ)?(PO|…|DS)?$`. -/
def weatherPlusShaped (p : Str) : Bool :=
  (eatOptB signChars p).any (fun a =>
    (eatOptB vcreChars a).any (fun b =>
      (eatOptB weatherDescs b).any (fun c =>
        (precipChain (c.length + 1) c).any (fun d =>
          (eatOptB weatherObscs d).any (fun e =>
            (eatOptB weatherOthers e).any (fun f => f.isEmpty))))))

/-- The trend weather pattern (line 437), all groups optional. -/
def trendWeatherShaped (p : Str) : Bool :=
  (eatOptB signChars p).any (fun a =>
    (eatOptB vcreChars a).any (fun b =>
      (eatOptB weatherDescs b).any (fun c =>
        (eatOptB weatherPrecips c).any (fun d =>
          (eatOptB weatherObscs d).any (fun e =>
            (eatOptB weatherOthers e).any (fun f => f.isEmpty))))))

/-! ### Searches and segmentation used by the validator -/

/-- `re.search(r'\sMK\s', text)`. -/
def searchWsMKWs : Str → Bool
  | a :: b :: c :: d :: rest =>
      (isWsC a && b = 'M' && c = 'K' && isWsC d) || searchWsMKWs (b :: c :: d :: rest)
  | _ => false

/-- A character outside `[A-Za-z0-9\s/+\-]`. -/
def badChar (c : Char) : Bool :=
  !(isAlphaC c || isDigitC c || isWsC c || c = '/' || c = '+' || c = '-')

/-- Word-boundary search `\bWORD\b` for an all-letter word. -/
def searchWordBAux (w : Str) : Option Char → Str → Bool
  | prev, s =>
    (bdryBefore prev && isPfx w s && bdryAfter (s.drop w.length)) ||
      match s with
      | [] => false
      | c :: rest => searchWordBAux w (some c) rest

def searchWordB (w s : Str) : Bool := searchWordBAux w none s

/-- `re.search(r'Q{5,}', s)`. -/
def hasQRun5 : Str → Bool
  | [] => false
  | c :: rest => (c :: rest).take 5 = "QQQQQ".data || hasQRun5 rest

/-- `text.split(pat, 1)`: the pieces before and after the first occurrence
(`(s, [])` when `pat` does not occur; the callers guard on occurrence). -/
def splitFirstAt (pat : Str) (s : Str) : Str × Str :=
  match s with
  | [] => ([], [])
  | c :: rest =>
      if isPfx pat (c :: rest) then ([], (c :: rest).drop pat.length)
      else
        let p := splitFirstAt pat rest
        (c :: p.1, p.2)

def trendKeywords : List Str := ["NOSIG".data, "BECMG".data, "TEMPO".data]

/-- Lines 153–179: locate the trend sub-part. The source loop recomputes
the same token scan for every keyword found as a substring and breaks once
the index is positive, which is equivalent to: the index is the first token
that is a trend keyword, provided some trend keyword occurs as a substring;
the split happens only when that index is positive. -/
def trendSplit (mp : Str) : Str × List Str :=
  let ht := trendKeywords.any (fun k => isInfix k mp)
  let tsi : Option Nat :=
    if ht then (pySplitWs mp).findIdx? (fun p => p ∈ trendKeywords) else none
  match tsi with
  | some i =>
      if i > 0 then
        let pa := pySplitWs mp
        (joinSpace (pa.take i), pa.drop i)
      else (mp, [])
  | none => (mp, [])

/-- The 14-entry `becmg_errors` list (lines 141–144). -/
def becmgErrs14 : List Str :=
  ["BCNG".data, "BECNG".data, "BCEMG".data, "BECML".data, "BECMFG".data,
   "BECMGG".data, "BECMGA".data, "BGECMG".data, "BECGG".data, "BEEMG".data,
   "BEMG".data, "MECMG".data, "BECMF".data, "BECMGM".data]

/-- The 16-entry lookback list of step 8 (lines 363–366). -/
def becmgErrs16 : List Str :=
  becmgErrs14 ++ ["ECMG".data, "BCECMG".data]

def knownFields : List Str :=
  ["NOSIG".data, "CAVOK".data, "BECMG".data, "TEMPO".data]

def validEndings : List Str :=
  ["NOSIG".data, "TEMPO".data, "BECMG".data, "NIL".data]

/-! ### Validator stage loops -/

/-- Lines 269–287: scan every token for a pressure group, stopping at the
first well-formed one; a token starting with `A`/`Q` that is neither
allow-listed nor well-formed rejects. -/
def qnhAllowed (p : Str) : Bool :=
  p = "AUTO".data || p = "AT".data || (isPfx "AT".data p && p.length = 6)

def qnhScan : List Str → Option Reason
  | [] => none
  | p :: rest =>
    if p.head? = some 'Q' || p.head? = some 'A' then
      if qnhAllowed p then qnhScan rest
      else if qnhShaped p then none
      else if qnhMissingShaped p then none
      else some (.invalidQnh p)
    else qnhScan rest

/-- Lines 321–335: one token of the isolated-character scan. -/
def step7At (parts : List Str) (i : Nat) (part : Str) : Option Reason :=
  let letterHit :=
    if part = ['M'] || part = ['P'] || part = ['U'] || part = ['D'] || part = ['N'] then
      if 0 < i && i < parts.length - 1 then
        let prev := parts.getD (i - 1) []
        let next := parts.getD (i + 1) []
        if !(prev.head? = some 'R' || isdigitStr next) then
          some (Reason.isolatedChar part)
        else none
      else none
    else none
  match letterHit with
  | some r => some r
  | none =>
      if isdigitStr part && part.length = 1 then some (.isolatedDigit part) else none

def step7Go (parts : List Str) : Nat → List Str → Option Reason
  | _, [] => none
  | i, p :: rest =>
    match step7At parts i p with
    | some r => some r
    | none => step7Go parts (i + 1) rest

def step7Scan (parts : List Str) : Option Reason := step7Go parts 0 parts

/-- Lines 339–408: one token of the suspicious-field scan. The lookback of
the `FM/TL/AT` branch uses the loop variable `i` left over from the
previous loop, which is always `len(parts) - 1` there; the translation keeps
that behaviour. The cloud-group branch only rejects: a cloud-like token
whose prefix is a recognised cloud type (including `VV`) falls through to
the long-uppercase-run check, because the source's `if` statements are
sequential and that branch has no `continue`. -/
def step8Tok (parts : List Str) (part : Str) : Option Reason :=
  if qnhShaped part || digits4 part || upperOnly part || tempLoose part ||
      rvrPfx part || windVarShaped part || cloudPfxTok part || vvShaped part ||
      slashesOnly part then none
  else if digits23 part then some (.isolatedNumeric part)
  else if fmtlShaped part then
    let i := parts.length - 1
    let lo := i - min 5 parts.length
    match ((parts.drop lo).take (i - lo)).find? (fun q => q ∈ becmgErrs16) with
    | some q => some (.spellingError q)
    | none => some (.timeIndicatorInMain (part.take 2))
  else if cloudLike part && !cloudVvPfxTok part then some (.invalidCloudGroup part)
  else if part.length > 6 && hasUpperRun6 part then
    if part ∈ knownFields || knownFields.any (fun kf => isInfix kf part) then none
    else if weatherPlusShaped part then none
    else if !icaoShaped part then some (.suspiciousField part)
    else none
  else none

def step8Go (parts : List Str) : List Str → Option Reason
  | [] => none
  | p :: rest =>
    match step8Tok parts p with
    | some r => some r
    | none => step8Go parts rest

def step8Scan (parts : List Str) (idx : Nat) : Option Reason :=
  step8Go parts (parts.drop idx)

/-- Lines 411–450: validation of the trend sub-part. -/
def trendGo : Option Str → List Str → Option Reason
  | _, [] => none
  | prev, part :: rest =>
    if part = "BECMG".data || part = "TEMPO".data then trendGo (some part) rest
    else if fmtlShaped part then
      if prev = none then some (.timeIndicatorInTrend part) else trendGo prev rest
    else if part = "NOSIG".data then trendGo prev rest
    else if trendWindShaped part || digits4 part || cloudPfxTok part ||
        part = "NSW".data || part = "CAVOK".data || trendWeatherShaped part then
      trendGo prev rest
    else if rvr2Pfx part then some (.rvrInTrend part)
    else if qnhShaped part then some (.qnhInTrend part)
    else if tempStrict part then some (.tempInTrend part)
    else if isPfx "WS".data part then some (.wshearInTrend part)
    else if probShaped part then some (.probInTrend part)
    else trendGo prev rest

def trendScan (trend_parts : List Str) : Option Reason := trendGo none trend_parts

/-- `^[A-Z]{1,2}\s+[A-Z]{1,2}$` applied to `' '.join(parts[-2:])`; split
tokens contain no whitespace, so this is: both tokens are 1–2 uppercase
letters. -/
def upper12 (p : Str) : Bool := (p.length = 1 || p.length = 2) && p.all isUpperC

/-! ### The validator body -/

/-- Lines 189–462: everything after segmentation, operating on the main
observation tokens `parts`, the `trend_parts` and the `has_rmk` flag. -/
def validateParts (parts trend_parts : List Str) (has_rmk : Bool) :
    Bool × Option Reason :=
  let p0 := parts.getD 0 []
  if icaoShaped p0 then (false, some (.missingReportType p0))
  else if !(p0 = "METAR".data || p0 = "SPECI".data || p0 = "TAF".data) then
    (false, some (.invalidReportType p0))
  else
    let idx1 : Nat := if 1 < parts.length && parts.getD 1 [] = "COR".data then 2 else 1
    if parts.length ≤ idx1 then (false, some .missingIcao)
    else
      let pIcao := parts.getD idx1 []
      if !icaoShaped pIcao then (false, some (.invalidIcao pIcao))
      else
        let idx2 := idx1 + 1
        if parts.length ≤ idx2 then (false, some .missingTime)
        else
          let pTime := parts.getD idx2 []
          if !timeShaped pTime then (false, some (.invalidTime pTime))
          else
            let day : Int := (digitsVal (pTime.take 2) : Int)
            if day < 1 || day > 31 then (false, some (.invalidDay day))
            else
              let idx3 := idx2 + 1
              if idx3 < parts.length && parts.getD idx3 [] = "NIL".data then
                (true, none)
              else
                let idx4 :=
                  if idx3 < parts.length && parts.getD idx3 [] = "AUTO".data then
                    idx3 + 1
                  else idx3
                let windRes : Except Reason Nat :=
                  if idx4 < parts.length then
                    let pw := parts.getD idx4 []
                    if windFullShaped pw then
                      let i5 := idx4 + 1
                      if i5 < parts.length && windVarShaped (parts.getD i5 []) then
                        .ok (i5 + 1)
                      else .ok i5
                    else if windLikeShaped pw then .error (.invalidWind pw)
                    else if windSpacingErr pw then .error (.windSpacing pw)
                    else if windVarErr pw then .error (.windVarSpacing pw)
                    else .ok idx4
                  else .ok idx4
                match windRes with
                | .error r => (false, some r)
                | .ok idxW =>
                  match qnhScan parts with
                  | some r => (false, some r)
                  | none =>
                    let last_part := parts.getLastD []
                    let sndLast := parts.getD (parts.length - 2) []
                    if parts.length ≥ 2 &&
                        ((sndLast ++ last_part) = "NOSIG".data ||
                         (sndLast ++ last_part) = "TEMPO".data ||
                         (sndLast ++ last_part) = "BECMG".data) then
                      (false, some (.invalidEndingSpacing sndLast last_part))
                    else if !has_rmk && singleUpper last_part then
                      (false, some (.singleLetterEnding last_part))
                    else if last_part ∉ validEndings &&
                        (last_part = "NOSIT".data || last_part = "NOSI".data ||
                         last_part = "OSIG".data || last_part = "DUPE".data) then
                      (false, some (.invalidEnding last_part))
                    else
                      match step7Scan parts with
                      | some r => (false, some r)
                      | none =>
                        match step8Scan parts idxW with
                        | some r => (false, some r)
                        | none =>
                          match (if trend_parts ≠ [] then trendScan trend_parts
                                 else none) with
                          | some r => (false, some r)
                          | none =>
                            if parts.length ≥ 2 && upper12 sndLast &&
                                upper12 last_part && sndLast ∉ validEndings &&
                                last_part ∉ validEndings then
                              (false, some (.invalidEndingPair sndLast last_part))
                            else (true, none)

/-- Lines 90–187: cleaning, remarks handling, lexical scans, segmentation;
then `validateParts`. -/
def validateClean (tc : Str) (strict_mode : Bool) : Bool × Option Reason :=
  if tc.contains '\n' || tc.contains '\r' then (false, some .lineBreaks)
  else if searchWsMKWs tc then (false, some .mkSpelling)
  else
    let has_rmk := isInfix "RMK".data tc
    let mp := if has_rmk then stripWs (splitFirstAt "RMK".data tc).1 else tc
    let rmk := if has_rmk then stripWs (splitFirstAt "RMK".data tc).2 else []
    if has_rmk && strict_mode then (false, some .rmkStrict)
    else if has_rmk && isInfix "BECMG".data rmk then
      (false, some (.trendInRmk "BECMG".data))
    else if has_rmk && isInfix "TEMPO".data rmk then
      (false, some (.trendInRmk "TEMPO".data))
    else if mp.any badChar then (false, some .invalidChars)
    else if searchWordB "EMPO".data mp then (false, some (.spellingError "EMPO".data))
    else if searchWordB "TRMPO".data mp then (false, some (.spellingError "TRMPO".data))
    else if searchWordB "ECMG".data mp then (false, some (.spellingError "ECMG".data))
    else if searchWordB "BCECMG".data mp then (false, some (.spellingError "BCECMG".data))
    else
      match becmgErrs14.find? (fun e => searchWordB e mp) with
      | some e => (false, some (.spellingError e))
      | none =>
        if hasQRun5 mp then (false, some .placeholderQ)
        else
          let st := trendSplit mp
          let main_obs_text := st.1
          let trend_parts := st.2
          if main_obs_text.length < 20 then (false, some .tooShort)
          else
            let parts := pySplitWs main_obs_text
            if parts.length < 4 then (false, some .missingFields)
            else validateParts parts trend_parts has_rmk

/-- Lines 67–95 entry: `validate_metar(text, strict_mode)`. -/
def validate_metar (text : Str) (strict_mode : Bool) : Bool × Option Reason :=
  if text = [] then (false, some .emptyInput)
  else validateClean (stripWs (rstripChar '=' text)) strict_mode

/-- The cleaned text (`text.rstrip("=").strip()`). -/
def cleanText (text : Str) : Str := stripWs (rstripChar '=' text)

/-- The main-part of the cleaned text after remarks splitting
(lines 101–123). -/
def rmkMainPart (tc : Str) : Str :=
  if isInfix "RMK".data tc then stripWs (splitFirstAt "RMK".data tc).1 else tc

/-- The main-observation tokens the validator scans (lines 153–185). -/
def mainObsParts (text : Str) : List Str :=
  pySplitWs (trendSplit (rmkMainPart (cleanText text))).1

/-! ## Claim-specific definitions (witness inputs and spec-side tables) -/

/-- A report `validate_metar` accepts in non-strict mode: its wind token
`12345GKT` matches the extraction pattern
`(\d{3}|VRB)\d{2}[G\d{2}]*(MPS|KT)` but none of the validator's wind checks,
so `parse_text` executes `gust = int(wdws[6:8]) = int("KT")`. -/
def c1Text : Str := "METAR ZBAA 311400Z 12345GKT CAVOK 14/12 Q1009 NOSIG=".data

/-- Strings that are concatenations of known phenomenon codes (the shapes
the weather field pattern can extract, after the intensity sign). -/
inductive KeyConcat : Str → Prop
  | nil : KeyConcat []
  | cons (k rest : Str) :
      k ∈ weatherKeyDescs.map Prod.fst → KeyConcat rest → KeyConcat (k ++ rest)

/-- C2 witness inputs. -/
def c2TextA : Str := "METAR KJFK 311400Z 01002MPS 2SM FEW020 14/12 A2992 NOSIG=".data
def c2TextQ : Str := "METAR ZBAA 311400Z 01002MPS CAVOK 14/12 Q1009 NOSIG=".data
def c2TextN : Str := "METAR ZBAA 311400Z 01002MPS BKN020 14/12 NOSIG=".data

/-- C4 witness inputs. -/
def c4Text9 : Str := "METAR ZBAA 311400Z 21009G14MPS 9999 FEW040 14/12 Q1009 NOSIG=".data
def c4Text0 : Str := "METAR ZBAA 311400Z 01002MPS 0000 FG 14/12 Q1009 NOSIG=".data
def c4Text22 : Str := "METAR ZGGG 311400Z 01002MPS 2200 BKN020 14/12 Q1009 NOSIG=".data
def c4TextSM : Str := "METAR KJFK 311400Z 01002MPS 2SM FEW020 14/12 A2992 NOSIG=".data
def c4TextCavok : Str := "METAR ZBAA 311400Z 01002MPS CAVOK 14/12 Q1009 NOSIG=".data
def c4TextNone : Str := "METAR ZBAA 311400Z 01002MPS BKN020 14/12 Q1009 NOSIG=".data

/-- The direction value the calm-wind rule and the direction step combine
to, for a standard three-character direction. -/
def stdWd (a b c : Char) (ws : Int) : Option Int :=
  if ws = 0 && ([a, b, c] : Str) = "000".data then none
  else if ([a, b, c] : Str) = "VRB".data then none
  else some (digitsVal [a, b, c] : Int)

/-- C3 witness inputs (the spec's own examples). -/
def c3TextKT : Str := "METAR ZBAA 311400Z 02020G30KT 9999 FEW040 14/12 Q1009 NOSIG=".data
def c3TextMPS : Str := "METAR ZBAA 311400Z 21009G14MPS 9999 FEW040 14/12 Q1009 NOSIG=".data

/-- C6 witness input. -/
def c6Text : Str := "METAR ZBAA 311400Z 00000MPS CAVOK 14/12 Q1009 NOSIG=".data

/-- The claim's cloud-amount table: `FEW` → 0.25, `SCT` → 0.5, `BKN` →
0.75, `OVC` → 1.0, `SKC`/`NSC` → 0 (stated from the claim's words, to be
compared with the source's `CLOUD_MASK`). -/
def specCloudMask (amt : Str) : ℚ :=
  if amt = "FEW".data then 1 / 4
  else if amt = "SCT".data then 1 / 2
  else if amt = "BKN".data then 3 / 4
  else if amt = "OVC".data then 1
  else 0

/-- C5 witness inputs (`BKN026` → 0.75 / 520 m in sorted position 0, a bare
`NSC` → 0 / no height, and a type-suffixed `BKN026CB` → 0.75 / 520 m). -/
def c5Text : Str := "METAR ZBDS 250000Z 29003MPS 9999 SCT040 BKN026 04/M08 Q1023 NOSIG=".data
def c5TextN : Str := "METAR ZBHH 242100Z 05002MPS 7000 NSC 01/M04 Q1023 NOSIG=".data
def c5TextCB : Str :=
  "METAR ZBDS 250000Z 29003MPS 9999 SCT040 BKN026CB 04/M08 Q1023 NOSIG=".data

/-- C9 counterexample input: a time group is present (`329999Z` matches
`\d{6}Z`) and `NIL` occurs in the non-trend body, yet the impossible
datetime raises before the NIL check is reached. -/
def c9BadText : Str := "METAR ZBAA 329999Z NIL".data

/-- C9 witness: `NIL` buried inside the longer token `XNILY` still yields
the no-observation result. -/
def c9Text : Str := "METAR ZBAA 311400Z XNILY 14/12 Q1009 NOSIG=".data

/-- C7 counterexample input: the station identifier `QAAA` sits in the
header region. -/
def c7Text : Str :=
  "METAR QAAA 311400Z 01002MPS CAVOK 14/12 Q1009 NOSIG=".data

/-- C7 witness input: a well-formed report whose only `A`/`Q`-leading
tokens are the malformed pressure token `Q10O9` and the valid `Q1009`
never reached after it. -/
def c7WText : Str :=
  "SPECI ZGGG 010000Z 01002MPS CAVOK 14/12 Q10O9 NOSIG=".data

/-! # Theorems settling the claims -/

/-! ## C1 — decoding of validator-accepted reports -/

/-- C1: the claim that `parse_text` never raises on a report accepted by
`validate_metar` in non-strict mode is violated by the code: `c1Text` is
accepted, yet `parse_text` raises `ValueError` (at `int("KT")` in the gust
branch) instead of returning a record or the no-observation `None`. -/
theorem c1_accepted_report_raises_valueerror :
    validate_metar c1Text false = (true, none) ∧
    parse_text c1Text 2024 1 = .exn .valueError :=
  ⟨rfl, rfl⟩

/-! ## C10 — trailing `=` never changes the verdict -/

/-- Stripping `=` absorbs one appended `=`. -/
theorem rstripChar_append_eq (s : Str) :
    rstripChar '=' (s ++ ['=']) = rstripChar '=' s := by
  simp [rstripChar, List.dropWhile]

/-- C10: for every non-empty input and both strictness modes, appending one
trailing `=` leaves the verdict pair of `validate_metar` unchanged. -/
theorem c10_trailing_eq_sentinel_invariant (text : Str) (strict : Bool)
    (h : text ≠ []) :
    validate_metar (text ++ "=".data) strict = validate_metar text strict := by
  have h' : text ++ "=".data ≠ [] := by simp
  show validate_metar (text ++ ['=']) strict = validate_metar text strict
  rw [validate_metar, validate_metar, if_neg h, if_neg h', rstripChar_append_eq]

/-- C10 witness at the concrete input `"A"`. -/
theorem c10_witness :
    ("A".data ≠ []) ∧
      validate_metar ("A".data ++ "=".data) false = validate_metar "A".data false :=
  ⟨by decide, c10_trailing_eq_sentinel_invariant "A".data false (by decide)⟩

/-! ## C8 — termination of `get_weather_description` -/

/-- C8 counterexample: on the input `"X"`, whose head begins no known
phenomenon code, the `while` loop of `get_weather_description` makes no
progress and the call never terminates (`none` in this model), so the claim
that every call on the decode path terminates fails as stated. -/
theorem c8_counterexample_x_diverges :
    get_weather_description "X".data = none :=
  rfl

/-- Every known code has length two. -/
theorem keys_len2 {k : Str} (hk : k ∈ weatherKeyDescs.map Prod.fst) :
    k.length = 2 := by
  have hall : (weatherKeyDescs.map Prod.fst).all (fun x => x.length = 2) = true := by
    decide
  have := List.all_eq_true.mp hall k hk
  simpa using this

/-- No known code starts with an intensity sign. -/
theorem keys_head_not_sign {k : Str} (hk : k ∈ weatherKeyDescs.map Prod.fst) :
    k.head? ≠ some '+' ∧ k.head? ≠ some '-' := by
  have hall : (weatherKeyDescs.map Prod.fst).all
      (fun x => x.head? ≠ some '+' && x.head? ≠ some '-') = true := by decide
  have := List.all_eq_true.mp hall k hk
  simp only [Bool.and_eq_true, decide_eq_true_eq] at this
  exact this

/-- The inner key loop peels exactly the leading known code. -/
theorem wdStep_key {k rest : Str} (hk : k ∈ weatherKeyDescs.map Prod.fst) :
    ∃ d, wdStep (k ++ rest) = some (d, rest) := by
  simp only [weatherKeyDescs, List.map_cons, List.map_nil, List.mem_cons,
    List.not_mem_nil, or_false] at hk
  rcases hk with rfl|rfl|rfl|rfl|rfl|rfl|rfl|rfl|rfl|rfl|rfl|rfl|rfl|rfl|rfl|rfl|
    rfl|rfl|rfl|rfl|rfl|rfl|rfl|rfl|rfl|rfl|rfl|rfl|rfl|rfl|rfl|rfl
  all_goals exact ⟨_, rfl⟩

/-- The `while` loop terminates on every code-concatenation, with any fuel
at least the length. -/
theorem wdLoop_total {code : Str} (h : KeyConcat code) :
    ∀ (fuel : Nat) (acc : Str), code.length ≤ fuel →
      (wdLoop fuel acc code).isSome = true := by
  induction h with
  | nil => intro fuel acc _; cases fuel <;> simp [wdLoop]
  | cons k rest hk hrest ih =>
    intro fuel acc hlen
    have hk2 : k.length = 2 := keys_len2 hk
    obtain ⟨a, b, rfl⟩ : ∃ a b, k = [a, b] := by
      match k, hk2 with
      | [a, b], _ => exact ⟨a, b, rfl⟩
    have hlen' : 2 + rest.length ≤ fuel := by
      simp only [List.length_append, List.length_cons, List.length_nil] at hlen
      omega
    match fuel, hlen' with
    | f + 1, _ =>
      obtain ⟨d, hd⟩ := @wdStep_key _ rest hk
      have hstep : wdLoop (f + 1) acc (a :: b :: rest) =
          wdLoop f (acc ++ d ++ [' ']) rest := by
        simp only [wdLoop]
        rw [show ((a :: b :: rest : Str)) = ([a, b] ++ rest : Str) from rfl, hd]
      rw [show (([a, b] ++ rest : Str)) = (a :: b :: rest : Str) from rfl, hstep]
      exact ih f _ (by omega)

/-- C8 (amended): `get_weather_description` terminates on every input that
is an optional intensity sign followed by a concatenation of known
two-letter phenomenon codes — in particular on every token the weather
field pattern can extract; it does not terminate on arbitrary strings. -/
theorem c8_amended_terminates_on_code_concats (code : Str) (hc : KeyConcat code) :
    (get_weather_description code).isSome = true ∧
    (get_weather_description ('+' :: code)).isSome = true ∧
    (get_weather_description ('-' :: code)).isSome = true := by
  have hterm := wdLoop_total hc code.length [] (Nat.le_refl _)
  obtain ⟨v, hv⟩ := Option.isSome_iff_exists.mp hterm
  refine ⟨?_, ?_, ?_⟩
  · rw [get_weather_description]
    rcases hc with _ | ⟨k, rest, hk, _⟩
    · rfl
    · obtain ⟨a, b, rfl⟩ : ∃ a b, k = [a, b] := by
        match k, keys_len2 hk with
        | [a, b], _ => exact ⟨a, b, rfl⟩
      have hsign := keys_head_not_sign hk
      have h1 : ¬(List.head? ([a, b] ++ rest) = some '+') := by
        simpa using hsign.1
      have h2 : ¬(List.head? ([a, b] ++ rest) = some '-') := by
        simpa using hsign.2
      simp only [if_neg h1, if_neg h2]
      rw [hv]
      rfl
  · have hplus : get_weather_description ('+' :: code) =
        (wdLoop code.length [] code).map (fun d => "Heavy ".data ++ stripWs d) := rfl
    rw [hplus, hv]
    rfl
  · have hminus : get_weather_description ('-' :: code) =
        (wdLoop code.length [] code).map (fun d => "Light ".data ++ stripWs d) := rfl
    rw [hminus, hv]
    rfl

/-- C8 witness: the concrete token `+TSRA` terminates (value
`Heavy Thunderstorm Rain`). -/
theorem c8_witness :
    (get_weather_description "+TSRA".data).isSome = true :=
  (c8_amended_terminates_on_code_concats "TSRA".data
    (KeyConcat.cons "TS".data "RA".data (by decide)
      (KeyConcat.cons "RA".data [] (by decide) KeyConcat.nil))).2.1

/-! ## Decomposition of a successful `parse_text` -/

/-- When `parse_text` returns a record, each record field equals the output
of the corresponding field decoder applied to the extracted token(s). -/
theorem parse_ok_decomp (text : Str) (y m : Int) (r : Record)
    (h : parse_text text y m = .ok r) :
    decodeWind (getFieldWind (getFieldObserv text)) =
      .ok (r.wind_direction, r.wind_speed, r.gust, r.wind_direction_range) ∧
    decodeVis (getFieldVis (getFieldObserv text))
      (getFieldCavok (getFieldObserv text)) = .ok r.visibility ∧
    decodeQnh (getFieldQnh (getFieldObserv text)) = .ok r.qnh ∧
    decodeClouds (getFieldCloudAll (getFieldObserv text)) = .ok r.cloud := by
  rw [parse_text] at h
  repeat' split at h
  all_goals try exact (PResult.noConfusion h)
  injection h with h'
  subst h'
  simp_all

/-- When `parse_text` returns a record at all, there is some record. -/
theorem isOk_exists {p : PResult} (h : isOk p = true) : ∃ r, p = .ok r := by
  cases p with
  | ok r => exact ⟨r, rfl⟩
  | noObs => simp [isOk] at h
  | exn e => simp [isOk] at h
  | hang => simp [isOk] at h

/-- `int(...)` on a nonempty all-digit string. -/
theorem pyInt_digits {ds : Str} (h1 : allDigits ds = true) (h2 : ds ≠ []) :
    pyInt ds = some (digitsVal ds : Int) := by
  match ds, h1, h2 with
  | c :: rest, h1, _ =>
    have hc : isDigitC c = true := by
      have := List.all_eq_true.mp h1 c (by simp)
      simpa using this
    have hcne : c ≠ '-' := by
      intro hEq
      rw [hEq] at hc
      exact absurd hc (by decide)
    simp [pyInt, hcne, h1]

/-! ## C2 — pressure decoding -/

/-- C2: whenever `parse_text` produces a record, an extracted pressure token
`A` + four digits yields `qnh` equal to the hundredths-of-inHg value
converted by the factor 33.8638 and truncated; a `Q` + four digits token
yields the digits as-is; and absence of a pressure token yields
`qnh = None`. -/
theorem c2_pressure_decoding (text : Str) (y m : Int)
    (hok : isOk (parse_text text y m) = true) :
    (∀ ds, getFieldQnh (getFieldObserv text) = some ('A' :: ds) →
        allDigits ds = true → ds.length = 4 →
        fieldQnh (parse_text text y m) =
          some (some ((digitsVal ds * 338638 / 10000 : Nat) : Int))) ∧
    (∀ ds, getFieldQnh (getFieldObserv text) = some ('Q' :: ds) →
        allDigits ds = true → ds.length = 4 →
        fieldQnh (parse_text text y m) = some (some (digitsVal ds : Int))) ∧
    (getFieldQnh (getFieldObserv text) = none →
        fieldQnh (parse_text text y m) = some none) := by
  obtain ⟨r, hr⟩ := isOk_exists hok
  have hq := (parse_ok_decomp text y m r hr).2.2.1
  refine ⟨?_, ?_, ?_⟩
  · intro ds hds hdig hlen
    rw [hds] at hq
    have hne : ds ≠ [] := by intro hEq; rw [hEq] at hlen; simp at hlen
    rw [decodeQnh] at hq
    rw [pyInt_digits hdig hne] at hq
    simp only [Except.ok.injEq] at hq
    rw [hr]
    simp only [fieldQnh, ← hq, inHgToHpa, Int.toNat_natCast]
    rfl
  · intro ds hds hdig hlen
    rw [hds] at hq
    have hne : ds ≠ [] := by intro hEq; rw [hEq] at hlen; simp at hlen
    rw [decodeQnh] at hq
    rw [pyInt_digits hdig hne] at hq
    simp only [Except.ok.injEq] at hq
    rw [hr]
    simp only [fieldQnh, ← hq]
  · intro hds
    rw [hds] at hq
    simp only [decodeQnh, Except.ok.injEq] at hq
    rw [hr]
    simp only [fieldQnh, ← hq]

/-- C2 witness: the `A2992` report gives `qnh = 101320` hPa, the `Q1009`
report gives `qnh = 1009`, the report without a pressure token gives
`qnh = None`. -/
theorem c2_witness :
    (isOk (parse_text c2TextA 2024 1) = true ∧
      fieldQnh (parse_text c2TextA 2024 1) = some (some 101320)) ∧
    (isOk (parse_text c2TextQ 2024 1) = true ∧
      fieldQnh (parse_text c2TextQ 2024 1) = some (some 1009)) ∧
    (isOk (parse_text c2TextN 2024 1) = true ∧
      fieldQnh (parse_text c2TextN 2024 1) = some none) :=
  ⟨⟨rfl, (c2_pressure_decoding c2TextA 2024 1 rfl).1 "2992".data rfl rfl rfl⟩,
   ⟨rfl, (c2_pressure_decoding c2TextQ 2024 1 rfl).2.1 "1009".data rfl rfl rfl⟩,
   ⟨rfl, (c2_pressure_decoding c2TextN 2024 1 rfl).2.2 rfl⟩⟩

/-! ## C4 — visibility decoding -/

/-- An all-digit token cannot end in `SM`. -/
theorem isSfx_SM_digits {ds : Str} (h : allDigits ds = true) :
    isSfx "SM".data ds = false := by
  rw [isSfx]
  match hrev : ds.reverse with
  | [] => rfl
  | c :: tl =>
    have hc : isDigitC c = true := by
      have hmem : c ∈ ds := by
        rw [← List.mem_reverse, hrev]
        simp
      have := List.all_eq_true.mp h c hmem
      simpa using this
    have hcne : ¬(('M' : Char) = c) := by
      intro hEq
      rw [← hEq] at hc
      exact absurd hc (by decide)
    simp [isPfx, hcne]

/-- C4: whenever `parse_text` produces a record, the extracted visibility
token decodes by the sentinel table (`9999` → 99999 m, `0000` → 50 m, any
other 4-digit token → its value in meters, a statute-mile token → miles ×
1609.34 truncated), and an absent token gives 99999 m exactly when the body
contains the CAVOK token and `None` otherwise. -/
theorem c4_visibility_decoding (text : Str) (y m : Int)
    (hok : isOk (parse_text text y m) = true) :
    (getFieldVis (getFieldObserv text) = some "9999".data →
        fieldVisibility (parse_text text y m) = some (some 99999)) ∧
    (getFieldVis (getFieldObserv text) = some "0000".data →
        fieldVisibility (parse_text text y m) = some (some 50)) ∧
    (∀ ds, getFieldVis (getFieldObserv text) = some ds → allDigits ds = true →
        ds.length = 4 → ds ≠ "9999".data → ds ≠ "0000".data →
        fieldVisibility (parse_text text y m) = some (some (digitsVal ds : Int))) ∧
    (∀ ds, getFieldVis (getFieldObserv text) = some (ds ++ "SM".data) →
        allDigits ds = true → ds ≠ [] →
        fieldVisibility (parse_text text y m) =
          some (some ((digitsVal ds * 160934 / 100 : Nat) : Int))) ∧
    (getFieldVis (getFieldObserv text) = none →
        (getFieldCavok (getFieldObserv text)).isSome = true →
        fieldVisibility (parse_text text y m) = some (some 99999)) ∧
    (getFieldVis (getFieldObserv text) = none →
        getFieldCavok (getFieldObserv text) = none →
        fieldVisibility (parse_text text y m) = some none) := by
  obtain ⟨r, hr⟩ := isOk_exists hok
  have hv := (parse_ok_decomp text y m r hr).2.1
  refine ⟨?_, ?_, ?_, ?_, ?_, ?_⟩
  · intro hds
    rw [hds] at hv
    simp only [decodeVis, reduceIte, Except.ok.injEq] at hv
    rw [hr]
    simp only [fieldVisibility, ← hv]
  · intro hds
    rw [hds] at hv
    simp only [decodeVis, reduceIte, Except.ok.injEq] at hv
    rw [if_neg (by decide : ¬(("0000".data : Str) = "9999".data))] at hv
    simp only [Except.ok.injEq] at hv
    rw [hr]
    simp only [fieldVisibility, ← hv]
  · intro ds hds hdig hlen h9 h0
    rw [hds] at hv
    have hne : ds ≠ [] := by intro hEq; rw [hEq] at hlen; simp at hlen
    rw [decodeVis, if_neg h9, if_neg h0, isSfx_SM_digits hdig] at hv
    simp only [Bool.false_eq_true, reduceIte] at hv
    rw [pyInt_digits hdig hne] at hv
    simp only [Except.ok.injEq] at hv
    rw [hr]
    simp only [fieldVisibility, ← hv]
  · intro ds hds hdig hne
    rw [hds] at hv
    have h9 : ds ++ "SM".data ≠ "9999".data := by
      intro hEq
      have : ('S' : Char) ∈ ("9999".data : Str) := by
        rw [← hEq]; simp
      exact absurd this (by decide)
    have h0 : ds ++ "SM".data ≠ "0000".data := by
      intro hEq
      have : ('S' : Char) ∈ ("0000".data : Str) := by
        rw [← hEq]; simp
      exact absurd this (by decide)
    have hsfx : isSfx "SM".data (ds ++ "SM".data) = true := by
      simp [isSfx, List.reverse_append, isPfx]
    have htake : (ds ++ "SM".data).take ((ds ++ "SM".data).length - 2) = ds := by
      have hlen : (ds ++ "SM".data).length - 2 = ds.length := by
        simp [List.length_append]
      rw [hlen, List.take_left]
    rw [decodeVis, if_neg h9, if_neg h0, hsfx] at hv
    simp only [reduceIte] at hv
    rw [htake] at hv
    rw [if_pos (by simp [hne, hdig] : (decide (ds ≠ []) && allDigits ds) = true)] at hv
    simp only [Except.ok.injEq] at hv
    rw [hr]
    simp only [fieldVisibility, ← hv, milesToMetersInt]
  · intro hds hcav
    rw [hds] at hv
    simp only [decodeVis, hcav, reduceIte, Except.ok.injEq] at hv
    rw [hr]
    simp only [fieldVisibility, ← hv]
  · intro hds hcav
    rw [hds] at hv
    simp only [decodeVis, hcav, Option.isSome_none, Bool.false_eq_true,
      reduceIte, Except.ok.injEq] at hv
    rw [hr]
    simp only [fieldVisibility, ← hv]

/-- C4 witness: `9999` → 99999 m, `0000` → 50 m, `2200` → 2200 m,
`2SM` → 3218 m, no token + CAVOK → 99999 m, no token without CAVOK →
`None`. -/
theorem c4_witness :
    (isOk (parse_text c4Text9 2024 1) = true ∧
      fieldVisibility (parse_text c4Text9 2024 1) = some (some 99999)) ∧
    (isOk (parse_text c4Text0 2024 1) = true ∧
      fieldVisibility (parse_text c4Text0 2024 1) = some (some 50)) ∧
    (isOk (parse_text c4Text22 2024 1) = true ∧
      fieldVisibility (parse_text c4Text22 2024 1) = some (some 2200)) ∧
    (isOk (parse_text c4TextSM 2024 1) = true ∧
      fieldVisibility (parse_text c4TextSM 2024 1) = some (some 3218)) ∧
    (isOk (parse_text c4TextCavok 2024 1) = true ∧
      fieldVisibility (parse_text c4TextCavok 2024 1) = some (some 99999)) ∧
    (isOk (parse_text c4TextNone 2024 1) = true ∧
      fieldVisibility (parse_text c4TextNone 2024 1) = some none) :=
  ⟨⟨rfl, (c4_visibility_decoding c4Text9 2024 1 rfl).1 rfl⟩,
   ⟨rfl, (c4_visibility_decoding c4Text0 2024 1 rfl).2.1 rfl⟩,
   ⟨rfl, (c4_visibility_decoding c4Text22 2024 1 rfl).2.2.1 "2200".data rfl rfl rfl
      (by decide) (by decide)⟩,
   ⟨rfl, (c4_visibility_decoding c4TextSM 2024 1 rfl).2.2.2.1 "2".data rfl rfl
      (by decide)⟩,
   ⟨rfl, (c4_visibility_decoding c4TextCavok 2024 1 rfl).2.2.2.2.1 rfl rfl⟩,
   ⟨rfl, (c4_visibility_decoding c4TextNone 2024 1 rfl).2.2.2.2.2 rfl rfl⟩⟩

/-! ## C3 / C6 — wind decoding -/

/-- A successful `decodeWind` factors through `decodeWindRest` on the first
space-separated item. -/
theorem decodeWind_ok_rest {w : Str}
    {res : Option Int × Option Int × Option Int × Option (Int × Int)}
    (hok : decodeWind (some w) = .ok res) :
    ∃ rg, decodeWindRest ((splitChar ' ' w).headD []) rg = .ok res := by
  rw [decodeWind] at hok
  split at hok
  · exact absurd hok (by simp)
  · exact ⟨_, hok⟩

/-- The unit conversion applied to a two-digit knot value, covering the
`if ws:` zero-speed guard. -/
theorem knots_if_eq (n : Nat) :
    (if (n : Int) ≠ 0 then knotsToMps (n : Int) else (n : Int)) =
      ((n * 5144444 / 10000000 : Nat) : Int) := by
  by_cases hz : n = 0
  · simp [hz]
  · have hz' : ((n : Int)) ≠ 0 := by exact_mod_cast hz
    simp [hz', knotsToMps, Int.toNat_natCast]

/-- A three-character direction that is all digits or the literal `VRB`
makes the direction step succeed. -/
theorem windDir_step (a b c : Char)
    (hdir : allDigits [a, b, c] = true ∨ ([a, b, c] : Str) = "VRB".data) :
    (if ([a, b, c] : Str) = "VRB".data then Except.ok (none : Option Int)
     else if ([a, b, c] : Str) ≠ [] && allDigits [a, b, c] then
       Except.ok (some (digitsVal [a, b, c] : Int))
     else Except.error PyErr.nameError) =
      Except.ok (if ([a, b, c] : Str) = "VRB".data then none
                 else some (digitsVal [a, b, c] : Int)) := by
  rcases hdir with hdig | hvrb
  · have hne : ¬(([a, b, c] : Str) = "VRB".data) := by
      intro hEq
      rw [hEq] at hdig
      exact absurd hdig (by decide)
    rw [if_neg hne, if_pos (by simp [hdig]), if_neg hne]
  · rw [if_pos hvrb, if_pos hvrb]

/-- `decodeWindRest` on a standard-form token `dddff` (or `VRBff`) with a
`KT` unit and no gust group. -/
theorem decodeWindRest_KT_noGust (a b c s1 s2 : Char) (rg : Option (Int × Int))
    (hdir : allDigits [a, b, c] = true ∨ ([a, b, c] : Str) = "VRB".data)
    (hs1 : isDigitC s1 = true) (hs2 : isDigitC s2 = true) :
    decodeWindRest (a :: b :: c :: s1 :: s2 :: 'K' :: 'T' :: []) rg =
      .ok (stdWd a b c (digitsVal [s1, s2] : Int),
           some ((digitsVal [s1, s2] * 5144444 / 10000000 : Nat) : Int),
           none, rg) := by
  have hsd : allDigits [s1, s2] = true := by simp [allDigits, hs1, hs2]
  have hpy : pyInt [s1, s2] = some (digitsVal [s1, s2] : Int) :=
    pyInt_digits hsd (by simp)
  have mid : decodeWindRest (a :: b :: c :: s1 :: s2 :: 'K' :: 'T' :: []) rg =
      .ok (stdWd a b c (digitsVal [s1, s2] : Int),
           some (if ((digitsVal [s1, s2] : Int)) ≠ 0 then
                   knotsToMps (digitsVal [s1, s2] : Int)
                 else (digitsVal [s1, s2] : Int)),
           none, rg) := by
    rw [decodeWindRest,
        show ((a :: b :: c :: s1 :: s2 :: 'K' :: 'T' :: [] : Str)).take 3 = [a, b, c] from rfl,
        windDir_step a b c hdir,
        show (((a :: b :: c :: s1 :: s2 :: 'K' :: 'T' :: [] : Str)).drop 3).take 2 = [s1, s2] from rfl,
        hpy]
    rfl
  rw [mid, knots_if_eq]

/-- The gust branch of the unit conversion, with its `if gust:` guard. -/
theorem knots_some_if_eq (n : Nat) :
    (if ((n : Int)) ≠ 0 then some (knotsToMps (n : Int)) else some ((n : Int))) =
      some ((n * 5144444 / 10000000 : Nat) : Int) := by
  by_cases hz : n = 0
  · simp [hz]
  · have hz' : ((n : Int)) ≠ 0 := by exact_mod_cast hz
    simp [hz', knotsToMps, Int.toNat_natCast]

/-- `decodeWindRest` on a standard-form token with a gust group and `KT`. -/
theorem decodeWindRest_KT_gust (a b c s1 s2 g1 g2 : Char) (rg : Option (Int × Int))
    (hdir : allDigits [a, b, c] = true ∨ ([a, b, c] : Str) = "VRB".data)
    (hs1 : isDigitC s1 = true) (hs2 : isDigitC s2 = true)
    (hg1 : isDigitC g1 = true) (hg2 : isDigitC g2 = true) :
    decodeWindRest (a :: b :: c :: s1 :: s2 :: 'G' :: g1 :: g2 :: 'K' :: 'T' :: []) rg =
      .ok (stdWd a b c (digitsVal [s1, s2] : Int),
           some ((digitsVal [s1, s2] * 5144444 / 10000000 : Nat) : Int),
           some ((digitsVal [g1, g2] * 5144444 / 10000000 : Nat) : Int), rg) := by
  have hpy : pyInt [s1, s2] = some (digitsVal [s1, s2] : Int) :=
    pyInt_digits (by simp [allDigits, hs1, hs2]) (by simp)
  have hpyg : pyInt [g1, g2] = some (digitsVal [g1, g2] : Int) :=
    pyInt_digits (by simp [allDigits, hg1, hg2]) (by simp)
  have mid : decodeWindRest (a :: b :: c :: s1 :: s2 :: 'G' :: g1 :: g2 :: 'K' :: 'T' :: []) rg =
      .ok (stdWd a b c (digitsVal [s1, s2] : Int),
           some (if ((digitsVal [s1, s2] : Int)) ≠ 0 then
                   knotsToMps (digitsVal [s1, s2] : Int)
                 else (digitsVal [s1, s2] : Int)),
           (if ((digitsVal [g1, g2] : Int)) ≠ 0 then
              some (knotsToMps (digitsVal [g1, g2] : Int))
            else some ((digitsVal [g1, g2] : Int))),
           rg) := by
    rw [decodeWindRest,
        show ((a :: b :: c :: s1 :: s2 :: 'G' :: g1 :: g2 :: 'K' :: 'T' :: [] : Str)).take 3 = [a, b, c] from rfl,
        windDir_step a b c hdir,
        show (((a :: b :: c :: s1 :: s2 :: 'G' :: g1 :: g2 :: 'K' :: 'T' :: [] : Str)).drop 3).take 2 = [s1, s2] from rfl,
        hpy,
        show (((a :: b :: c :: s1 :: s2 :: 'G' :: g1 :: g2 :: 'K' :: 'T' :: [] : Str)).drop 6).take 2 = [g1, g2] from rfl,
        hpyg]
    rfl
  rw [mid, knots_if_eq, knots_some_if_eq]

/-- `decodeWindRest` on a standard-form token with an `MPS` unit and no
gust group: the digits pass through unconverted. -/
theorem decodeWindRest_MPS_noGust (a b c s1 s2 : Char) (rg : Option (Int × Int))
    (hdir : allDigits [a, b, c] = true ∨ ([a, b, c] : Str) = "VRB".data)
    (hs1 : isDigitC s1 = true) (hs2 : isDigitC s2 = true) :
    decodeWindRest (a :: b :: c :: s1 :: s2 :: 'M' :: 'P' :: 'S' :: []) rg =
      .ok (stdWd a b c (digitsVal [s1, s2] : Int),
           some ((digitsVal [s1, s2] : Nat) : Int), none, rg) := by
  have hpy : pyInt [s1, s2] = some (digitsVal [s1, s2] : Int) :=
    pyInt_digits (by simp [allDigits, hs1, hs2]) (by simp)
  rw [decodeWindRest,
      show ((a :: b :: c :: s1 :: s2 :: 'M' :: 'P' :: 'S' :: [] : Str)).take 3 = [a, b, c] from rfl,
      windDir_step a b c hdir,
      show (((a :: b :: c :: s1 :: s2 :: 'M' :: 'P' :: 'S' :: [] : Str)).drop 3).take 2 = [s1, s2] from rfl,
      hpy]
  rfl

/-- `decodeWindRest` on a standard-form token with a gust group and `MPS`:
both digit values pass through unconverted. -/
theorem decodeWindRest_MPS_gust (a b c s1 s2 g1 g2 : Char) (rg : Option (Int × Int))
    (hdir : allDigits [a, b, c] = true ∨ ([a, b, c] : Str) = "VRB".data)
    (hs1 : isDigitC s1 = true) (hs2 : isDigitC s2 = true)
    (hg1 : isDigitC g1 = true) (hg2 : isDigitC g2 = true) :
    decodeWindRest (a :: b :: c :: s1 :: s2 :: 'G' :: g1 :: g2 :: 'M' :: 'P' :: 'S' :: []) rg =
      .ok (stdWd a b c (digitsVal [s1, s2] : Int),
           some ((digitsVal [s1, s2] : Nat) : Int),
           some ((digitsVal [g1, g2] : Nat) : Int), rg) := by
  have hpy : pyInt [s1, s2] = some (digitsVal [s1, s2] : Int) :=
    pyInt_digits (by simp [allDigits, hs1, hs2]) (by simp)
  have hpyg : pyInt [g1, g2] = some (digitsVal [g1, g2] : Int) :=
    pyInt_digits (by simp [allDigits, hg1, hg2]) (by simp)
  rw [decodeWindRest,
      show ((a :: b :: c :: s1 :: s2 :: 'G' :: g1 :: g2 :: 'M' :: 'P' :: 'S' :: [] : Str)).take 3 = [a, b, c] from rfl,
      windDir_step a b c hdir,
      show (((a :: b :: c :: s1 :: s2 :: 'G' :: g1 :: g2 :: 'M' :: 'P' :: 'S' :: [] : Str)).drop 3).take 2 = [s1, s2] from rfl,
      hpy,
      show (((a :: b :: c :: s1 :: s2 :: 'G' :: g1 :: g2 :: 'M' :: 'P' :: 'S' :: [] : Str)).drop 6).take 2 = [g1, g2] from rfl,
      hpyg]
  rfl

/-- C3: whenever `parse_text` produces a record, a wind token in knots has
its speed (and gust, when present) converted by `floor(d * 0.5144444)`,
while an `MPS` token passes the digit values through unchanged. -/
theorem c3_wind_unit_conversion (text : Str) (y m : Int) (w : Str)
    (a b c s1 s2 : Char)
    (hok : isOk (parse_text text y m) = true)
    (hw : getFieldWind (getFieldObserv text) = some w)
    (hdir : allDigits [a, b, c] = true ∨ ([a, b, c] : Str) = "VRB".data)
    (hs1 : isDigitC s1 = true) (hs2 : isDigitC s2 = true) :
    ((splitChar ' ' w).headD [] = [a, b, c, s1, s2, 'K', 'T'] →
        fieldWindSpeed (parse_text text y m) =
          some (some ((digitsVal [s1, s2] * 5144444 / 10000000 : Nat) : Int)) ∧
        fieldGust (parse_text text y m) = some none) ∧
    (∀ g1 g2, isDigitC g1 = true → isDigitC g2 = true →
      (splitChar ' ' w).headD [] = [a, b, c, s1, s2, 'G', g1, g2, 'K', 'T'] →
        fieldWindSpeed (parse_text text y m) =
          some (some ((digitsVal [s1, s2] * 5144444 / 10000000 : Nat) : Int)) ∧
        fieldGust (parse_text text y m) =
          some (some ((digitsVal [g1, g2] * 5144444 / 10000000 : Nat) : Int))) ∧
    ((splitChar ' ' w).headD [] = [a, b, c, s1, s2, 'M', 'P', 'S'] →
        fieldWindSpeed (parse_text text y m) = some (some (digitsVal [s1, s2] : Int)) ∧
        fieldGust (parse_text text y m) = some none) ∧
    (∀ g1 g2, isDigitC g1 = true → isDigitC g2 = true →
      (splitChar ' ' w).headD [] = [a, b, c, s1, s2, 'G', g1, g2, 'M', 'P', 'S'] →
        fieldWindSpeed (parse_text text y m) = some (some (digitsVal [s1, s2] : Int)) ∧
        fieldGust (parse_text text y m) = some (some (digitsVal [g1, g2] : Int))) := by
  obtain ⟨r, hr⟩ := isOk_exists hok
  have hw4 := (parse_ok_decomp text y m r hr).1
  rw [hw] at hw4
  obtain ⟨rg, hrest⟩ := decodeWind_ok_rest hw4
  refine ⟨?_, ?_, ?_, ?_⟩
  · intro hsh
    rw [hsh, decodeWindRest_KT_noGust a b c s1 s2 rg hdir hs1 hs2] at hrest
    simp only [Except.ok.injEq, Prod.mk.injEq] at hrest
    rw [hr]
    simp only [fieldWindSpeed, fieldGust, ← hrest.2.1, ← hrest.2.2.1]
    exact ⟨trivial, trivial⟩
  · intro g1 g2 hg1 hg2 hsh
    rw [hsh, decodeWindRest_KT_gust a b c s1 s2 g1 g2 rg hdir hs1 hs2 hg1 hg2] at hrest
    simp only [Except.ok.injEq, Prod.mk.injEq] at hrest
    rw [hr]
    simp only [fieldWindSpeed, fieldGust, ← hrest.2.1, ← hrest.2.2.1]
    exact ⟨trivial, trivial⟩
  · intro hsh
    rw [hsh, decodeWindRest_MPS_noGust a b c s1 s2 rg hdir hs1 hs2] at hrest
    simp only [Except.ok.injEq, Prod.mk.injEq] at hrest
    rw [hr]
    simp only [fieldWindSpeed, fieldGust, ← hrest.2.1, ← hrest.2.2.1]
    exact ⟨trivial, trivial⟩
  · intro g1 g2 hg1 hg2 hsh
    rw [hsh, decodeWindRest_MPS_gust a b c s1 s2 g1 g2 rg hdir hs1 hs2 hg1 hg2] at hrest
    simp only [Except.ok.injEq, Prod.mk.injEq] at hrest
    rw [hr]
    simp only [fieldWindSpeed, fieldGust, ← hrest.2.1, ← hrest.2.2.1]
    exact ⟨trivial, trivial⟩

/-- C3 witness: `02020G30KT` decodes to speed 10 and gust 15;
`21009G14MPS` decodes to speed 9 (and gust 14) unconverted. -/
theorem c3_witness :
    (isOk (parse_text c3TextKT 2024 1) = true ∧
      fieldWindSpeed (parse_text c3TextKT 2024 1) = some (some 10) ∧
      fieldGust (parse_text c3TextKT 2024 1) = some (some 15)) ∧
    (isOk (parse_text c3TextMPS 2024 1) = true ∧
      fieldWindSpeed (parse_text c3TextMPS 2024 1) = some (some 9) ∧
      fieldGust (parse_text c3TextMPS 2024 1) = some (some 14)) :=
  ⟨⟨rfl,
    (c3_wind_unit_conversion c3TextKT 2024 1 "02020G30KT".data '0' '2' '0' '2' '0'
        rfl rfl (Or.inl rfl) rfl rfl).2.1 '3' '0' rfl rfl rfl⟩,
   ⟨rfl,
    (c3_wind_unit_conversion c3TextMPS 2024 1 "21009G14MPS".data '2' '1' '0' '0' '9'
        rfl rfl (Or.inl rfl) rfl rfl).2.2.2 '1' '4' rfl rfl rfl⟩⟩

/-- Whatever follows a `00000` prefix in the wind item, a successful decode
reports calm wind: direction `None`, speed 0. -/
theorem decodeWindRest_calm (rest : Str) (rg : Option (Int × Int))
    (res : Option Int × Option Int × Option Int × Option (Int × Int))
    (hok : decodeWindRest ('0' :: '0' :: '0' :: '0' :: '0' :: rest) rg = .ok res) :
    res.1 = none ∧ res.2.1 = some 0 := by
  cases rest with
  | nil =>
    rw [show decodeWindRest ['0', '0', '0', '0', '0'] rg = .error .indexError from rfl] at hok
    exact Except.noConfusion hok
  | cons ch r2 =>
    rw [decodeWindRest] at hok
    rw [show (('0' :: '0' :: '0' :: '0' :: '0' :: ch :: r2 : Str)).take 3 = "000".data from rfl] at hok
    rw [if_neg (by decide : ¬(("000".data : Str) = "VRB".data))] at hok
    rw [if_pos (by decide : (decide (("000".data : Str) ≠ []) && allDigits "000".data) = true)] at hok
    rw [show pyInt ((('0' :: '0' :: '0' :: '0' :: '0' :: ch :: r2 : Str)).drop 3 |>.take 2) = some 0 from rfl] at hok
    rw [show (('0' :: '0' :: '0' :: '0' :: '0' :: ch :: r2 : Str)).get? 5 = some ch from rfl] at hok
    repeat' split at hok
    all_goals try simp_all
    all_goals rw [← hok]
    all_goals exact ⟨rfl, rfl⟩

/-- C6: whenever `parse_text` produces a record and the wind token starts
with the all-zero bearing and zero speed `00000`, the record reports
`wind_direction = None` and `wind_speed = 0`, never a literal north
bearing. -/
theorem c6_calm_wind (text : Str) (y m : Int) (w rest : Str)
    (hok : isOk (parse_text text y m) = true)
    (hw : getFieldWind (getFieldObserv text) = some w)
    (hsh : (splitChar ' ' w).headD [] = '0' :: '0' :: '0' :: '0' :: '0' :: rest) :
    fieldWindDirection (parse_text text y m) = some none ∧
    fieldWindSpeed (parse_text text y m) = some (some 0) := by
  obtain ⟨r, hr⟩ := isOk_exists hok
  have hw4 := (parse_ok_decomp text y m r hr).1
  rw [hw] at hw4
  obtain ⟨rg, hrest⟩ := decodeWind_ok_rest hw4
  rw [hsh] at hrest
  have hcalm := decodeWindRest_calm rest rg _ hrest
  rw [hr]
  simp only [fieldWindDirection, fieldWindSpeed]
  exact ⟨by rw [← hcalm.1], by rw [← hcalm.2]⟩

/-- C6 witness: `00000MPS` decodes to direction `None` and speed 0. -/
theorem c6_witness :
    isOk (parse_text c6Text 2024 1) = true ∧
    fieldWindDirection (parse_text c6Text 2024 1) = some none ∧
    fieldWindSpeed (parse_text c6Text 2024 1) = some (some 0) :=
  ⟨rfl,
   (c6_calm_wind c6Text 2024 1 "00000MPS".data "MPS".data rfl rfl rfl).1,
   (c6_calm_wind c6Text 2024 1 "00000MPS".data "MPS".data rfl rfl rfl).2⟩

/-! ## C5 — cloud layers -/

/-- A character that is not a digit never equals a digit. -/
theorem decide_eq_digit_false {c e : Char} (hc : isDigitC c = false)
    (he : isDigitC e = true) : decide (c = e) = false := by
  apply decide_eq_false
  intro h
  rw [h, he] at hc
  exact Bool.noConfusion hc

/-- `str.replace` is the identity when the pattern does not occur. -/
theorem replaceAllAux_no_occur (pat repl : Str) :
    ∀ (fuel : Nat) (s : Str), isInfix pat s = false →
      replaceAllAux pat repl fuel s = s := by
  intro fuel
  induction fuel with
  | zero => intro s _; rfl
  | succ f ih =>
    intro s h
    cases s with
    | nil => rfl
    | cons c rest =>
      rw [isInfix] at h
      have h2 := Bool.or_eq_false_iff.mp h
      rw [replaceAllAux, if_neg (by simp [h2.1]), ih rest h2.2]

theorem replaceAll_no_occur (pat repl s : Str) (h : isInfix pat s = false) :
    replaceAll pat repl s = s :=
  replaceAllAux_no_occur pat repl s.length s h

/-- Indexing through a successful `mapEx`. -/
theorem mapEx_get {α β : Type} (f : α → Except PyErr β) :
    ∀ (l : List α) (gs : List β), mapEx f l = .ok gs →
      ∀ (i : Nat) (a : α), l[i]? = some a →
        ∃ b, f a = .ok b ∧ gs[i]? = some b := by
  intro l
  induction l with
  | nil =>
    intro gs _ i a ha
    simp at ha
  | cons x xs ih =>
    intro gs hgs i a ha
    rw [mapEx] at hgs
    cases hx : f x with
    | error e => rw [hx] at hgs; exact absurd hgs (by simp)
    | ok b =>
      rw [hx] at hgs
      cases hxs : mapEx f xs with
      | error e => rw [hxs] at hgs; exact absurd hgs (by simp)
      | ok bs =>
        rw [hxs] at hgs
        simp only [Except.ok.injEq] at hgs
        subst hgs
        cases i with
        | zero =>
          simp at ha
          subst ha
          exact ⟨b, hx, by simp⟩
        | succ j =>
          simp only [List.getElem?_cons_succ] at ha ⊢
          exact ih bs hxs j a ha

/-- `decodeCloudTok` on a bare amount token. -/
theorem decodeCloudTok_amt (amt : Str) (hamt : amt ∈ cloudAmts) :
    ∃ q, CLOUD_MASK amt = some q ∧
      decodeCloudTok amt =
        .ok { cloud_mask := q, cloud_height := none,
              cloud_height_units := "m".data, cloud_type := none } := by
  simp only [cloudAmts, List.mem_cons, List.not_mem_nil, or_false] at hamt
  rcases hamt with rfl | rfl | rfl | rfl | rfl | rfl
  all_goals exact ⟨_, rfl, rfl⟩

/-- `decodeCloudTok` on an amount followed by a three-digit height. -/
theorem decodeCloudTok_digits (amt : Str) (hamt : amt ∈ cloudAmts)
    (e1 e2 e3 : Char) (h1 : isDigitC e1 = true) (h2 : isDigitC e2 = true)
    (h3 : isDigitC e3 = true) :
    ∃ q, CLOUD_MASK amt = some q ∧
      decodeCloudTok (amt ++ [e1, e2, e3]) =
        .ok { cloud_mask := q,
              cloud_height := some ((digitsVal [e1, e2, e3] : Int) * 20),
              cloud_height_units := "m".data, cloud_type := none } := by
  have d1C := decide_eq_digit_false (c := 'C') (by decide) h1
  have d1B := decide_eq_digit_false (c := 'B') (by decide) h1
  have d1T := decide_eq_digit_false (c := 'T') (by decide) h1
  have d1U := decide_eq_digit_false (c := 'U') (by decide) h1
  have d1S := decide_eq_digit_false (c := '/') (by decide) h1
  have d2C := decide_eq_digit_false (c := 'C') (by decide) h2
  have d2B := decide_eq_digit_false (c := 'B') (by decide) h2
  have d2T := decide_eq_digit_false (c := 'T') (by decide) h2
  have d2U := decide_eq_digit_false (c := 'U') (by decide) h2
  have d2S := decide_eq_digit_false (c := '/') (by decide) h2
  have d3C := decide_eq_digit_false (c := 'C') (by decide) h3
  have d3B := decide_eq_digit_false (c := 'B') (by decide) h3
  have d3T := decide_eq_digit_false (c := 'T') (by decide) h3
  have d3U := decide_eq_digit_false (c := 'U') (by decide) h3
  have d3S := decide_eq_digit_false (c := '/') (by decide) h3
  have hpy : pyInt [e1, e2, e3] = some (digitsVal [e1, e2, e3] : Int) :=
    pyInt_digits (by simp [allDigits, h1, h2, h3]) (by simp)
  simp only [cloudAmts, List.mem_cons, List.not_mem_nil, or_false] at hamt
  rcases hamt with rfl | rfl | rfl | rfl | rfl | rfl
  all_goals
    refine ⟨_, rfl, ?_⟩
    rw [decodeCloudTok]
    rw [replaceAll_no_occur "CB".data [] _
          (by simp [isInfix, isPfx, d1C, d2C, d3C, d1B, d2B, d3B])]
    rw [replaceAll_no_occur "///".data [] _
          (by simp [isInfix, isPfx, d1S, d2S, d3S])]
    rw [replaceAll_no_occur "TCU".data [] _
          (by simp [isInfix, isPfx, d1T, d2T, d3T, d1C, d2C, d3C, d1U, d2U, d3U])]
    simp [isInfix, isPfx, d1C, d2C, d3C, d1B, d2B, d3B, d1T, d2T, d3T,
          d1U, d2U, d3U, d1S, d2S, d3S, hpy, CLOUD_MASK]

/-- The source's `CLOUD_MASK` table agrees with the claim's table on the
six amount codes. -/
theorem CLOUD_MASK_spec (amt : Str) (hamt : amt ∈ cloudAmts) :
    CLOUD_MASK amt = some (specCloudMask amt) := by
  simp only [cloudAmts, List.mem_cons, List.not_mem_nil, or_false] at hamt
  rcases hamt with rfl | rfl | rfl | rfl | rfl | rfl <;>
    simp [CLOUD_MASK, specCloudMask] <;> norm_num

/-- A string is a prefix of itself. -/
theorem isPfx_refl : ∀ s : Str, isPfx s s = true := by
  intro s
  induction s with
  | nil => rfl
  | cons c cs ih => simp [isPfx, ih]

theorem replaceAllAux_nil (pat repl : Str) (fuel : Nat) :
    replaceAllAux pat repl fuel [] = [] := by
  cases fuel <;> rfl

/-- `str.replace(pat, "")` strips a terminal occurrence of `pat` when no
occurrence starts inside the prefix. -/
theorem replaceAllAux_tail (pat : Str) (hp : pat ≠ []) :
    ∀ (pre : Str) (fuel : Nat), pre.length < fuel →
      (∀ i, i < pre.length → isPfx pat ((pre ++ pat).drop i) = false) →
      replaceAllAux pat [] fuel (pre ++ pat) = pre := by
  intro pre
  induction pre with
  | nil =>
    intro fuel hf hno
    match fuel, hf with
    | f + 1, _ =>
      rw [List.nil_append]
      match pat, hp with
      | c :: ps, _ =>
        rw [replaceAllAux]
        rw [if_pos (by simp [isPfx_refl])]
        rw [List.drop_length]
        rw [replaceAllAux_nil]
        rfl
  | cons c pre2 ih =>
    intro fuel hf hno
    match fuel, hf with
    | f + 1, hf2 =>
      rw [List.cons_append, replaceAllAux]
      rw [if_neg (by
        have h0 := hno 0 (by simp)
        simp only [List.drop_zero, List.cons_append] at h0
        simp [h0])]
      rw [ih f (by simp at hf2; omega) (fun i hi => by
        have := hno (i + 1) (by simpa using hi)
        simpa using this)]

theorem replaceAll_tail (pat : Str) (hp : pat ≠ []) (pre : Str)
    (hno : ∀ i, i < pre.length → isPfx pat ((pre ++ pat).drop i) = false) :
    replaceAll pat [] (pre ++ pat) = pre := by
  apply replaceAllAux_tail pat hp pre
  · have : 1 ≤ pat.length := by
      cases pat with
      | nil => exact absurd rfl hp
      | cons c ps => simp
    simp [List.length_append]
    omega
  · exact hno

/-- `decodeCloudTok` on every token shape the cloud pattern extracts and
lines 748–792 decode: an amount code, an optional three-digit height, and
an optional `CB`/`TCU` type suffix. -/
theorem decodeCloudTok_full (amt : Str) (hamt : amt ∈ cloudAmts)
    (ds suf : Str)
    (hds : ds = [] ∨ (ds.length = 3 ∧ allDigits ds = true))
    (hsuf : suf = [] ∨ suf = "CB".data ∨ suf = "TCU".data) :
    ∃ q ct, CLOUD_MASK amt = some q ∧
      decodeCloudTok (amt ++ ds ++ suf) =
        .ok { cloud_mask := q,
              cloud_height := if ds = [] then none
                              else some ((digitsVal ds : Int) * 20),
              cloud_height_units := "m".data, cloud_type := ct } := by
  rcases hds with rfl | ⟨hlen, hdig⟩
  · rcases hsuf with rfl | rfl | rfl <;>
      (simp only [cloudAmts, List.mem_cons, List.not_mem_nil, or_false] at hamt;
       rcases hamt with rfl | rfl | rfl | rfl | rfl | rfl) <;>
      exact ⟨_, _, rfl, rfl⟩
  · obtain ⟨e1, e2, e3, rfl⟩ : ∃ a b c, ds = [a, b, c] := by
      match ds, hlen with
      | [a, b, c], _ => exact ⟨a, b, c, rfl⟩
    have h1 : isDigitC e1 = true := by
      have := List.all_eq_true.mp hdig e1 (by simp)
      simpa using this
    have h2 : isDigitC e2 = true := by
      have := List.all_eq_true.mp hdig e2 (by simp)
      simpa using this
    have h3 : isDigitC e3 = true := by
      have := List.all_eq_true.mp hdig e3 (by simp)
      simpa using this
    have d1C := decide_eq_digit_false (c := 'C') (by decide) h1
    have d1B := decide_eq_digit_false (c := 'B') (by decide) h1
    have d1T := decide_eq_digit_false (c := 'T') (by decide) h1
    have d1U := decide_eq_digit_false (c := 'U') (by decide) h1
    have d1S := decide_eq_digit_false (c := '/') (by decide) h1
    have d2C := decide_eq_digit_false (c := 'C') (by decide) h2
    have d2B := decide_eq_digit_false (c := 'B') (by decide) h2
    have d2T := decide_eq_digit_false (c := 'T') (by decide) h2
    have d2U := decide_eq_digit_false (c := 'U') (by decide) h2
    have d2S := decide_eq_digit_false (c := '/') (by decide) h2
    have d3C := decide_eq_digit_false (c := 'C') (by decide) h3
    have d3B := decide_eq_digit_false (c := 'B') (by decide) h3
    have d3T := decide_eq_digit_false (c := 'T') (by decide) h3
    have d3U := decide_eq_digit_false (c := 'U') (by decide) h3
    have d3S := decide_eq_digit_false (c := '/') (by decide) h3
    have hpy : pyInt [e1, e2, e3] = some (digitsVal [e1, e2, e3] : Int) :=
      pyInt_digits (by simp [allDigits, h1, h2, h3]) (by simp)
    rcases hsuf with rfl | rfl | rfl
    · simp only [List.append_nil]
      obtain ⟨q, hq, hdec⟩ := decodeCloudTok_digits amt hamt e1 e2 e3 h1 h2 h3
      refine ⟨q, none, hq, ?_⟩
      rw [hdec]
      simp
    · simp only [cloudAmts, List.mem_cons, List.not_mem_nil, or_false] at hamt
      rcases hamt with rfl | rfl | rfl | rfl | rfl | rfl
      all_goals
        refine ⟨_, some CloudType.cumulonimbus, rfl, ?_⟩
        rw [decodeCloudTok]
        rw [replaceAll_tail "CB".data (by simp) _ (by
          intro i hi
          simp only [List.length_append, List.length_cons, List.length_nil] at hi
          interval_cases i <;>
            simp [isPfx, d1C, d1B, d1T, d1U, d2C, d2B, d2T, d2U,
              d3C, d3B, d3T, d3U])]
        rw [replaceAll_no_occur "///".data [] _
              (by simp [isInfix, isPfx, d1S, d2S, d3S])]
        rw [replaceAll_no_occur "TCU".data [] _
              (by simp [isInfix, isPfx, d1T, d2T, d3T, d1C, d2C, d3C,
                d1U, d2U, d3U])]
        simp [isInfix, isPfx, d1C, d2C, d3C, d1B, d2B, d3B, d1T, d2T, d3T,
              d1U, d2U, d3U, d1S, d2S, d3S, hpy, CLOUD_MASK]
    · simp only [cloudAmts, List.mem_cons, List.not_mem_nil, or_false] at hamt
      rcases hamt with rfl | rfl | rfl | rfl | rfl | rfl
      all_goals
        refine ⟨_, some CloudType.altocumulus, rfl, ?_⟩
        rw [decodeCloudTok]
        rw [replaceAll_no_occur "CB".data [] _
              (by simp [isInfix, isPfx, d1C, d2C, d3C, d1B, d2B, d3B])]
        rw [replaceAll_no_occur "///".data [] _
              (by simp [isInfix, isPfx, d1S, d2S, d3S])]
        rw [replaceAll_tail "TCU".data (by simp) _ (by
          intro i hi
          simp only [List.length_append, List.length_cons, List.length_nil] at hi
          interval_cases i <;>
            simp [isPfx, d1C, d1B, d1T, d1U, d2C, d2B, d2T, d2U,
              d3C, d3B, d3T, d3U])]
        simp [isInfix, isPfx, d1C, d2C, d3C, d1B, d2B, d3B, d1T, d2T, d3T,
              d1U, d2U, d3U, d1S, d2S, d3S, hpy, CLOUD_MASK]

/-- C5: whenever `parse_text` produces a record, the cloud layer list is
assembled from the extracted cloud tokens sorted lexicographically, the
layer at each sorted position mapping its amount prefix through the fixed
table (`FEW` → 0.25, `SCT` → 0.5, `BKN` → 0.75, `OVC` → 1.0,
`SKC`/`NSC` → 0) with height the encoded 3-digit value × 20 m when the
digit group is present and `None` otherwise — including tokens carrying a
`CB`/`TCU` cloud-type suffix, which the pattern also extracts. -/
theorem c5_cloud_assembly (text : Str) (y m : Int)
    (hok : isOk (parse_text text y m) = true) :
    ∀ toks, getFieldCloudAll (getFieldObserv text) = some toks →
      ∀ (i : Nat) (tok amt ds suf : Str), (sortLex toks)[i]? = some tok →
        amt ∈ cloudAmts → tok = amt ++ ds ++ suf →
        (ds = [] ∨ (ds.length = 3 ∧ allDigits ds = true)) →
        (suf = [] ∨ suf = "CB".data ∨ suf = "TCU".data) →
        Option.map CloudRec.cloud_mask (fieldCloudAt (parse_text text y m) i) =
          some (specCloudMask amt) ∧
        Option.map CloudRec.cloud_height (fieldCloudAt (parse_text text y m) i) =
          some (if ds = [] then none else some ((digitsVal ds : Int) * 20)) := by
  obtain ⟨r, hr⟩ := isOk_exists hok
  have hc := (parse_ok_decomp text y m r hr).2.2.2
  intro toks htoks i tok amt ds suf hi hamt htok hds hsuf
  rw [htoks] at hc
  simp only [decodeClouds] at hc
  cases hmap : mapEx decodeCloudTok (sortLex toks) with
  | error e => rw [hmap] at hc; exact absurd hc (by simp)
  | ok gs =>
    rw [hmap] at hc
    simp only [Except.ok.injEq] at hc
    obtain ⟨b, hb, hgi⟩ := mapEx_get decodeCloudTok (sortLex toks) gs hmap i tok hi
    subst htok
    obtain ⟨q, ct, hq, hdec⟩ := decodeCloudTok_full amt hamt ds suf hds hsuf
    rw [hdec] at hb
    simp only [Except.ok.injEq] at hb
    have hmask := CLOUD_MASK_spec amt hamt
    rw [hq] at hmask
    simp only [Option.some.injEq] at hmask
    rw [hr]
    simp only [fieldCloudAt, ← hc, hgi, ← hb, Option.map_some]
    exact ⟨by rw [← hmask]; rfl, rfl⟩

/-- C5 witness: with tokens `SCT040 BKN026` the sorted layer 0 is `BKN026`
(mask 0.75, height 520 m) and layer 1 is `SCT040` (mask 0.5); a bare `NSC`
gives mask 0 and no height; the type-suffixed `BKN026CB` gives mask 0.75
and height 520 m. -/
theorem c5_witness :
    (isOk (parse_text c5Text 2024 1) = true ∧
      Option.map CloudRec.cloud_mask (fieldCloudAt (parse_text c5Text 2024 1) 0) =
        some ((3 : ℚ) / 4) ∧
      Option.map CloudRec.cloud_height (fieldCloudAt (parse_text c5Text 2024 1) 0) =
        some (some 520) ∧
      Option.map CloudRec.cloud_mask (fieldCloudAt (parse_text c5Text 2024 1) 1) =
        some ((1 : ℚ) / 2)) ∧
    (isOk (parse_text c5TextN 2024 1) = true ∧
      Option.map CloudRec.cloud_mask (fieldCloudAt (parse_text c5TextN 2024 1) 0) =
        some 0 ∧
      Option.map CloudRec.cloud_height (fieldCloudAt (parse_text c5TextN 2024 1) 0) =
        some none) ∧
    (isOk (parse_text c5TextCB 2024 1) = true ∧
      Option.map CloudRec.cloud_mask (fieldCloudAt (parse_text c5TextCB 2024 1) 0) =
        some ((3 : ℚ) / 4) ∧
      Option.map CloudRec.cloud_height (fieldCloudAt (parse_text c5TextCB 2024 1) 0) =
        some (some 520)) := by
  have hBKN := c5_cloud_assembly c5Text 2024 1 rfl ["SCT040".data, "BKN026".data] rfl
    0 "BKN026".data "BKN".data "026".data [] rfl (by decide) (by simp)
    (Or.inr ⟨rfl, rfl⟩) (Or.inl rfl)
  have hSCT := c5_cloud_assembly c5Text 2024 1 rfl ["SCT040".data, "BKN026".data] rfl
    1 "SCT040".data "SCT".data "040".data [] rfl (by decide) (by simp)
    (Or.inr ⟨rfl, rfl⟩) (Or.inl rfl)
  have hNSC := c5_cloud_assembly c5TextN 2024 1 rfl ["NSC".data] rfl
    0 "NSC".data "NSC".data [] [] rfl (by decide) (by simp) (Or.inl rfl)
    (Or.inl rfl)
  have hCB := c5_cloud_assembly c5TextCB 2024 1 rfl
    ["SCT040".data, "BKN026CB".data] rfl
    0 "BKN026CB".data "BKN".data "026".data "CB".data rfl (by decide) rfl
    (Or.inr ⟨rfl, rfl⟩) (Or.inr (Or.inl rfl))
  refine ⟨⟨rfl, ?_, ?_, ?_⟩, ⟨rfl, ?_, ?_⟩, ⟨rfl, ?_, ?_⟩⟩
  · rw [hBKN.1]
    simp [specCloudMask]
  · rw [hBKN.2]
    rfl
  · rw [hSCT.1]
    simp [specCloudMask]
  · rw [hNSC.1]
    simp [specCloudMask]
  · rw [hNSC.2]
    rfl
  · rw [hCB.1]
    simp [specCloudMask]
  · rw [hCB.2]
    rfl

/-! ## C9 — NIL as a substring of the non-trend body -/

/-- C9 counterexample: the input has a time group and `NIL` occurs in the
non-trend body, but `parse_text` raises `ValueError` (from the
`datetime(...)` call on day 32) instead of returning the no-observation
result, refuting the claim as stated for every input with a time group. -/
theorem c9_counterexample_datetime_raises :
    (getFieldTime c9BadText).isSome = true ∧
    isInfix "NIL".data (getFieldObserv c9BadText) = true ∧
    parse_text c9BadText 2024 1 = .exn .valueError :=
  ⟨rfl, rfl, rfl⟩

/-- C9 (amended): for every input with a time group whose day/hour/minute
slices parse as integers forming a constructible datetime, `parse_text`
returns the no-observation result whenever `NIL` occurs as a substring
anywhere in the non-trend body — including inside a longer token — because
the `nil` pattern `NIL` has no word boundaries and `re.search` finds any
substring occurrence. -/
theorem c9_amended_nil_substring_noobs (text : Str) (y m day hour minute : Int)
    (ts : Str)
    (hts : getFieldTime text = some ts)
    (hd : pyInt (ts.take 2) = some day)
    (hh : pyInt ((ts.drop 2).take 2) = some hour)
    (hmi : pyInt ((ts.drop 4).take 2) = some minute)
    (hdt : (mkDatetime y m day hour minute).isSome = true)
    (hnil : isInfix "NIL".data (getFieldObserv text) = true) :
    parse_text text y m = .noObs := by
  obtain ⟨dt, hdt2⟩ := Option.isSome_iff_exists.mp hdt
  simp only [parse_text, hts, hd, hh, hmi, hdt2, getFieldNil]
  rw [if_pos hnil]

theorem c9_witness : parse_text c9Text 2024 1 = PResult.noObs :=
  c9_amended_nil_substring_noobs c9Text 2024 1 31 14 0 "311400Z".data
    rfl rfl rfl rfl rfl rfl

/-! ## C7 — scope of the pressure-token scan -/

/-- C7 counterexample: the pressure scan (`for part in parts`) ranges over
ALL tokens, header included; the station identifier `QAAA` (token index 1,
inside the header region) starts with the pressure-indicator letter,
matches neither pressure form and is not allow-listed, so the otherwise
well-formed report is rejected with a pressure-format reason — refuting
the claim that header tokens never trigger this rejection. -/
theorem c7_counterexample_header_icao_rejected :
    (mainObsParts c7Text).getD 1 [] = "QAAA".data ∧
    validate_metar c7Text false =
      (false, some (Reason.invalidQnh "QAAA".data)) :=
  ⟨rfl, rfl⟩

theorem getD_mem_of_lt {l : List Str} {n : Nat} (h : n < l.length) :
    l.getD n [] ∈ l := by
  rw [List.getD_eq_getElem l [] h]
  exact List.getElem_mem h

set_option maxHeartbeats 1000000 in
theorem validateParts_qnh_reject (parts tp : List Str) (hrmk : Bool)
    (hnil : "NIL".data ∉ parts)
    (hq : (qnhScan parts).isSome = true) :
    (validateParts parts tp hrmk).1 = false := by
  obtain ⟨r, hr⟩ := Option.isSome_iff_exists.mp hq
  cases hv : validateParts parts tp hrmk with
  | mk b rsn =>
    rw [validateParts] at hv
    lift_lets at hv
    extract_lets at hv
    rename_i windRes last_part sndLast
    clear_value windRes
    rw [hr] at hv
    simp only [Bool.and_eq_true, Bool.or_eq_true, decide_eq_true_eq,
      Bool.not_eq_true, Bool.not_eq_true'] at hv
    repeat' split at hv
    all_goals try (injection hv with h1 h2; exact h1.symm)
    all_goals (
      rename_i hc
      have hm := getD_mem_of_lt hc.1
      rw [hc.2] at hm
      exact absurd hm hnil)

set_option maxHeartbeats 2000000 in
/-- C7 (amended): the pressure scan ranges over every token of the main
observation part, the header region included: whenever the report contains
no standalone `NIL` token (which would end validation early) and the scan
of all tokens rejects some token — one starting with the pressure-indicator
letter that matches neither the 4-digit form nor the all-placeholder form
and is not allow-listed — the validator rejects the report, regardless of
whether that token lies in the header region. -/
theorem c7_amended_qnh_scan_all_tokens (text : Str) (strict : Bool)
    (hnil : "NIL".data ∉ mainObsParts text)
    (hq : (qnhScan (mainObsParts text)).isSome = true) :
    (validate_metar text strict).1 = false := by
  simp only [validate_metar]
  split
  · rfl
  simp only [mainObsParts, rmkMainPart, cleanText] at hnil hq
  rw [validateClean]
  lift_lets
  extract_lets has_rmk mp rmk st mot tps parts
  cases h1 : (List.contains (stripWs (rstripChar '=' text)) '\n' ||
      List.contains (stripWs (rstripChar '=' text)) '\r') with
  | true => rfl
  | false =>
  cases h2 : searchWsMKWs (stripWs (rstripChar '=' text)) with
  | true => rfl
  | false =>
  cases h3 : (has_rmk && strict) with
  | true => rfl
  | false =>
  cases h4 : (has_rmk && isInfix "BECMG".data rmk) with
  | true => rfl
  | false =>
  cases h5 : (has_rmk && isInfix "TEMPO".data rmk) with
  | true => rfl
  | false =>
  cases h6 : List.any mp badChar with
  | true => rfl
  | false =>
  cases h7 : searchWordB "EMPO".data mp with
  | true => rfl
  | false =>
  cases h8 : searchWordB "TRMPO".data mp with
  | true => rfl
  | false =>
  cases h9 : searchWordB "ECMG".data mp with
  | true => rfl
  | false =>
  cases h10 : searchWordB "BCECMG".data mp with
  | true => rfl
  | false =>
  cases hfind : becmgErrs14.find? (fun e => searchWordB e mp) with
  | some e => rfl
  | none =>
  cases h11 : hasQRun5 mp with
  | true => rfl
  | false =>
  by_cases h12 : mot.length < 20
  · rw [if_pos h12]
    rfl
  · rw [if_neg h12]
    by_cases h13 : parts.length < 4
    · rw [if_pos h13]
      rfl
    · rw [if_neg h13]
      exact validateParts_qnh_reject parts tps has_rmk hnil hq

theorem c7_witness : (validate_metar c7WText false).1 = false :=
  c7_amended_qnh_scan_all_tokens c7WText false (by decide) (by decide)

end Pymetaf
